import Mathlib

/-!
# The NVIDIA GPU collector (`collector/nvidia_gpu.go`)

A shallow embedding of `NewCollector` and of `nvidaCollector.Update`.

`Update` talks to two external collaborators: the NVML binding (`gonvml`) and the
prometheus channel.  One scan is modelled as a pure function from the collector and
the answers the library gives during that scan to the ordered trace of what the scan
did (library calls, log lines, metrics sent on the channel) together with the way the
scan ended (returned, exited the process, panicked).

Conventions
* Go `uint` results of the library are natural numbers; the conversion `int(x)` of the
  source is `intOfUint` (64-bit two's complement), so a value of `2^63` or more becomes
  negative exactly as in Go.
* `float64(x)` is not computed: a metric records the integer `x` that the source hands
  to `float64`.
* A Go `error` is the string `%v` prints for it.
-/

namespace collector

/-! ## prometheus: descriptors and constant metrics -/

/-- A Go `error`, represented by its message. -/
abbrev GoError := String

/-- The `prometheus.ValueType` constants the collector uses. -/
inductive ValueType where
  | CounterValue
  | GaugeValue
  deriving DecidableEq, Repr

/-- A `prometheus.Desc` as far as the collector determines it: fully qualified name,
help text and the ordered variable label names (the constant labels are always `nil`). -/
structure Desc where
  fqName : String
  help : String
  variableLabels : List String
  deriving DecidableEq, Repr

/-- The function `prometheus.BuildFQName`: the non-empty parts joined by underscores, the
empty string when the name itself is empty. -/
def BuildFQName (ns subsystem name : String) : String :=
  if name = "" then ""
  else if ns ≠ "" ∧ subsystem ≠ "" then ns ++ "_" ++ subsystem ++ "_" ++ name
  else if ns ≠ "" then ns ++ "_" ++ name
  else if subsystem ≠ "" then subsystem ++ "_" ++ name
  else name

/-- The function `prometheus.NewDesc` with `nil` constant labels. -/
def NewDesc (fqName help : String) (variableLabels : List String) : Desc :=
  { fqName := fqName, help := help, variableLabels := variableLabels }

/-- A constant metric: what one `ch <- prometheus.MustNewConstMetric(...)` puts on the
channel.  The field `value` is the integer operand of the `float64(...)` conversion in
the source. -/
structure Metric where
  desc : Desc
  valueType : ValueType
  value : Nat
  labelValues : List String
  deriving DecidableEq, Repr

/-- Modelled from the spec: `prometheus.NewConstMetric` is library code outside `src/`.
It is modelled by its label-cardinality check: an error unless exactly as many label
values are supplied as the descriptor declares label names (spec §3, Sample:
"labelValues ... length == descriptor.labelNames length"). -/
def NewConstMetric (desc : Desc) (valueType : ValueType) (value : Nat)
    (labelValues : List String) : Except GoError Metric :=
  if labelValues.length = desc.variableLabels.length then
    .ok { desc := desc, valueType := valueType, value := value, labelValues := labelValues }
  else
    .error "inconsistent label cardinality"

/-! ## The collector and its descriptors -/

/-- The struct `nvidaCollector`. -/
structure nvidaCollector where
  deviceCount : Desc
  deviceInfo : Desc
  memoryUsed : Desc
  memoryTotal : Desc
  powerUsage : Desc
  temperature : Desc
  processInfo : Desc
  utilizationGPU : Desc
  utilizationMemory : Desc
  utilizationGPUAverage : Desc
  deriving DecidableEq, Repr

/-- The constant `space`. -/
def space : String := "nvidia"

/-- The package variable `labels`. -/
def labels : List String := ["minor_number", "uuid", "name"]

/-- The package variable `averageDuration`, `10 * time.Second`, in nanoseconds. -/
def averageDuration : Nat := 10 * 1000000000

/-- The function `NewCollector`: the collector with its ten descriptors, and a `nil`
error. -/
def NewCollector : nvidaCollector × Option GoError :=
  ({ deviceCount := NewDesc (BuildFQName space "" "device_count")
      "Number of GPU devices." []
     deviceInfo := NewDesc (BuildFQName space "" "driver_info")
      "driver_info." ["minor_number", "uuid", "name", "version"]
     memoryUsed := NewDesc (BuildFQName space "" "memory_used")
      "Memory used by the GPU device in bytes." labels
     memoryTotal := NewDesc (BuildFQName space "" "memory_total")
      "Total memory of the GPU device in bytes." labels
     powerUsage := NewDesc (BuildFQName space "" "power_usage")
      "Power usage of the GPU device in milliwatts." labels
     temperature := NewDesc (BuildFQName space "" "temperatures")
      "Temperature of the GPU device in celsius." labels
     processInfo := NewDesc (BuildFQName space "" "processInfo")
      "Structure to store utilization value and process Id." ["minor_number", "Pid", "name"]
     utilizationGPU := NewDesc (BuildFQName space "" "utilization_gpu")
      "Percent of time over the past sample period during which one or more kernels were executing on the GPU device."
      labels
     utilizationMemory := NewDesc (BuildFQName space "" "utilization_memory")
      "Percent of time over the past sample period during which one or more kernels were executing on the GPU device."
      labels
     utilizationGPUAverage := NewDesc (BuildFQName space "" "utilization_gpu_average")
      "Used memory as reported by the device averraged over 10s." labels },
   none)

/-! ## The NVML binding as seen by one scan -/

/-- One entry of the slice `GetProcessInfo` returns. -/
structure ProcessInfo where
  PID : Nat
  Name : String
  UsedMemory : Nat
  deriving DecidableEq, Repr

/-- The answers of the library during loop iteration `i` of one scan: the handle lookup,
the three identity calls, and the seven telemetry calls (each is made at most once per
iteration).  `MemoryInfo` answers `(total, used)`, `UtilizationRates` answers
`(gpu, memory)`. -/
structure DeviceResponses where
  DeviceHandleByIndex : Except GoError Unit
  MinorNumber : Except GoError Nat
  UUID : Except GoError String
  Name : Except GoError String
  SystemDriverVersion : Except GoError String
  MemoryInfo : Except GoError (Nat × Nat)
  PowerUsage : Except GoError Nat
  Temperature : Except GoError Nat
  GetProcessInfo : Except GoError (List ProcessInfo)
  UtilizationRates : Except GoError (Nat × Nat)
  AverageGPUUtilization : Except GoError Nat

/-- The answers of the library during one scan: `Initialize` answers an optional error,
`DeviceCount` a `uint` or an error, and `device i` holds the answers of iteration `i`. -/
structure Library where
  Initialize : Option GoError
  DeviceCount : Except GoError Nat
  device : Nat → DeviceResponses

/-- A call into the NVML binding.  Calls on a device handle carry the index the handle
was obtained for. -/
inductive Call where
  | Initialize
  | Shutdown
  | DeviceCount
  | DeviceHandleByIndex (i : Nat)
  | MinorNumber (i : Nat)
  | UUID (i : Nat)
  | Name (i : Nat)
  | SystemDriverVersion
  | MemoryInfo (i : Nat)
  | PowerUsage (i : Nat)
  | Temperature (i : Nat)
  | GetProcessInfo (i : Nat)
  | UtilizationRates (i : Nat)
  | AverageGPUUtilization (i : Nat) (duration : Nat)
  deriving DecidableEq, Repr

/-- What a scan does, in order: a library call, a line written through `log`, or a
metric sent on the channel. -/
inductive Event where
  | call (c : Call)
  | log (msg : String)
  | send (m : Metric)
  deriving DecidableEq, Repr

/-- How a piece of code ends: it falls through to the next statement, returns from
`Update` with an error value (`none` is `nil`), exits the process (`os.Exit`, as
`log.Fatalf` does), or panics. -/
inductive Flow where
  | normal
  | returned (err : Option GoError)
  | exited (code : Nat)
  | panicked (v : String)
  deriving DecidableEq, Repr

/-- The trace of a piece of code and the way it ended. -/
structure Run where
  events : List Event
  flow : Flow
  deriving DecidableEq, Repr

/-- Sequential composition: the second piece runs only if the first fell through. -/
def Run.andThen (r k : Run) : Run :=
  match r.flow with
  | .normal => { events := r.events ++ k.events, flow := k.flow }
  | _ => r

/-- A block of statements executed in order. -/
def Run.seq : List Run → Run
  | [] => { events := [], flow := .normal }
  | r :: rs => r.andThen (Run.seq rs)

/-- The metric an event sends, if it is a send. -/
def Event.sent : Event → Option Metric
  | .send m => some m
  | _ => none

/-- The library call an event makes, if it is a call. -/
def Event.called : Event → Option Call
  | .call c => some c
  | _ => none

/-- The line an event logs, if it is a log line. -/
def Event.logged : Event → Option String
  | .log msg => some msg
  | _ => none

/-- The metrics sent on the channel, in order. -/
def Run.samples (r : Run) : List Metric := r.events.filterMap Event.sent

/-- The library calls made, in order. -/
def Run.calls (r : Run) : List Call := r.events.filterMap Event.called

/-- The lines logged, in order. -/
def Run.logs (r : Run) : List String := r.events.filterMap Event.logged

/-- A library call. -/
def libCall (c : Call) : Run := { events := [.call c], flow := .normal }

/-- The statement `log.Printf(...)`. -/
def logPrintf (msg : String) : Run := { events := [.log msg], flow := .normal }

/-- The statement `log.Fatalf(...)`: the line is logged, then `os.Exit(1)`. -/
def logFatalf (msg : String) : Run := { events := [.log msg], flow := .exited 1 }

/-- The statement `return err`. -/
def goReturn (err : Option GoError) : Run := { events := [], flow := .returned err }

/-- The function `prometheus.MustNewConstMetric` followed by the channel send: panics
when `NewConstMetric` fails, before anything is sent. -/
def sendMustNewConstMetric (desc : Desc) (valueType : ValueType) (value : Nat)
    (labelValues : List String) : Run :=
  match NewConstMetric desc valueType value labelValues with
  | .ok m => { events := [.send m], flow := .normal }
  | .error e => { events := [], flow := .panicked e }

/-- A statement `defer f()` placed before `body`: when `body` returns or panics, `f`
runs; when the process exits inside `body`, it does not. -/
def withDefer (deferred body : Run) : Run :=
  match body.flow with
  | .exited _ => body
  | _ => { events := body.events ++ deferred.events, flow := body.flow }

/-- The conversion `int(x)` of a `uint` on a 64-bit platform. -/
def intOfUint (x : Nat) : Int :=
  if x % 2 ^ 64 < 2 ^ 63 then ((x % 2 ^ 64 : Nat) : Int) else ((x % 2 ^ 64 : Nat) : Int) - 2 ^ 64

/-- The function `strconv.Itoa`. -/
def Itoa (x : Int) : String := toString x

/-- The function `fmt.Sprint` on a `uint`. -/
def Sprint (x : Nat) : String := toString x

/-! ## `Update` -/

/-- Lines 132-137 of `Update`: what follows the call `gonvml.SystemDriverVersion()`. -/
def sampleDriverInfo (c : nvidaCollector) (minor uuid name : String)
    (r : Except GoError String) : Run :=
  match r with
  | .error err => logPrintf ("SystemDriverVersion() error: " ++ err)
  | .ok deviceInfo =>
    sendMustNewConstMetric c.deviceInfo .CounterValue 0 [minor, uuid, name, deviceInfo]

/-- Lines 140-148 of `Update`: what follows the call `dev.MemoryInfo()`, which answers
`(memoryTotal, memoryUsed)`. -/
def sampleMemoryInfo (c : nvidaCollector) (minor uuid name : String)
    (r : Except GoError (Nat × Nat)) : Run :=
  match r with
  | .error err => logPrintf ("MemoryInfo() error: " ++ err)
  | .ok (memoryTotal, memoryUsed) =>
    Run.seq [
      sendMustNewConstMetric c.memoryUsed .GaugeValue memoryUsed [minor, uuid, name],
      sendMustNewConstMetric c.memoryTotal .GaugeValue memoryTotal [minor, uuid, name]]

/-- Lines 151-156 of `Update`: what follows the call `dev.PowerUsage()`. -/
def samplePowerUsage (c : nvidaCollector) (minor uuid name : String)
    (r : Except GoError Nat) : Run :=
  match r with
  | .error err => logPrintf ("PowerUsage() error: " ++ err)
  | .ok powerUsage =>
    sendMustNewConstMetric c.powerUsage .GaugeValue powerUsage [minor, uuid, name]

/-- Lines 159-164 of `Update`: what follows the call `dev.Temperature()`. -/
def sampleTemperature (c : nvidaCollector) (minor uuid name : String)
    (r : Except GoError Nat) : Run :=
  match r with
  | .error err => logPrintf ("Temperature() error: " ++ err)
  | .ok temperature =>
    sendMustNewConstMetric c.temperature .GaugeValue temperature [minor, uuid, name]

/-- Lines 167-177 of `Update`: what follows the call `dev.GetProcessInfo()`; one metric
per entry of the slice, in slice order. -/
def sampleProcessInfo (c : nvidaCollector) (minor : String)
    (r : Except GoError (List ProcessInfo)) : Run :=
  match r with
  | .error err => logPrintf ("ProcessInfo() error: " ++ err)
  | .ok processInfo =>
    Run.seq (processInfo.map fun process =>
      sendMustNewConstMetric c.processInfo .GaugeValue process.UsedMemory
        [minor, Sprint process.PID, process.Name])

/-- Lines 180-187 of `Update`: what follows the call `dev.UtilizationRates()`, which
answers `(utilizationGPU, utilizationMemory)`. -/
def sampleUtilizationRates (c : nvidaCollector) (minor uuid name : String)
    (r : Except GoError (Nat × Nat)) : Run :=
  match r with
  | .error err => logPrintf ("UtilizationRates() error: " ++ err)
  | .ok (utilizationGPU, utilizationMemory) =>
    Run.seq [
      sendMustNewConstMetric c.utilizationGPU .GaugeValue utilizationGPU [minor, uuid, name],
      sendMustNewConstMetric c.utilizationMemory .GaugeValue utilizationMemory
        [minor, uuid, name]]

/-- Lines 190-195 of `Update`: what follows the call
`dev.AverageGPUUtilization(averageDuration)`. -/
def sampleAverageGPUUtilization (c : nvidaCollector) (minor uuid name : String)
    (r : Except GoError Nat) : Run :=
  match r with
  | .error err => logPrintf ("AverageGPUUtilization() error: " ++ err)
  | .ok utilizationGPUAverage =>
    sendMustNewConstMetric c.utilizationGPUAverage .GaugeValue utilizationGPUAverage
      [minor, uuid, name]

/-- Lines 131-195 of `Update`: the seven telemetry calls of one loop iteration, made
after the identity of the device is known.  A failing call is logged and its metrics
are skipped; the calls after it are made all the same. -/
def sampleFields (c : nvidaCollector) (d : DeviceResponses) (i : Nat)
    (minor uuid name : String) : Run :=
  Run.seq [
    libCall .SystemDriverVersion,
    sampleDriverInfo c minor uuid name d.SystemDriverVersion,
    libCall (.MemoryInfo i),
    sampleMemoryInfo c minor uuid name d.MemoryInfo,
    libCall (.PowerUsage i),
    samplePowerUsage c minor uuid name d.PowerUsage,
    libCall (.Temperature i),
    sampleTemperature c minor uuid name d.Temperature,
    libCall (.GetProcessInfo i),
    sampleProcessInfo c minor d.GetProcessInfo,
    libCall (.UtilizationRates i),
    sampleUtilizationRates c minor uuid name d.UtilizationRates,
    libCall (.AverageGPUUtilization i averageDuration),
    sampleAverageGPUUtilization c minor uuid name d.AverageGPUUtilization]

/-- Lines 107-195 of `Update`: the body of the device loop at index `i`.  A failing
handle lookup or identity call is logged and ends the iteration (`continue`). -/
def loopBody (c : nvidaCollector) (lib : Library) (i : Nat) : Run :=
  (libCall (.DeviceHandleByIndex i)).andThen <|
  match (lib.device i).DeviceHandleByIndex with
  | .error err =>
    logPrintf ("DeviceHandleByIndex(" ++ toString i ++ ") error: " ++ err)
  | .ok _ =>
    (libCall (.MinorNumber i)).andThen <|
    match (lib.device i).MinorNumber with
    | .error err => logPrintf ("MinorNumber() error: " ++ err)
    | .ok minorNumber =>
      let minor := Itoa (intOfUint minorNumber)
      (libCall (.UUID i)).andThen <|
      match (lib.device i).UUID with
      | .error err => logPrintf ("UUID() error: " ++ err)
      | .ok uuid =>
        (libCall (.Name i)).andThen <|
        match (lib.device i).Name with
        | .error err => logPrintf ("Name() error: " ++ err)
        | .ok name => sampleFields c (lib.device i) i minor uuid name

/-- The loop `for i := 0; i < int(deviceCount); i++` from index `i` on, with `remaining`
iterations still to run. -/
def deviceLoop (c : nvidaCollector) (lib : Library) (i : Nat) : (remaining : Nat) → Run
  | 0 => { events := [], flow := .normal }
  | remaining + 1 => (loopBody c lib i).andThen (deviceLoop c lib (i + 1) remaining)

/-- Lines 99-197 of `Update`: what runs after the `defer` statement, up to the `return`. -/
def afterDefer (c : nvidaCollector) (lib : Library) : Run :=
  (libCall .DeviceCount).andThen <|
  match lib.DeviceCount with
  | .error err =>
    (logPrintf ("DeviceCount() error: " ++ err)).andThen (goReturn (some err))
  | .ok deviceCount =>
    Run.seq [
      sendMustNewConstMetric c.deviceCount .CounterValue deviceCount [],
      deviceLoop c lib 0 (intOfUint deviceCount).toNat,
      goReturn none]

/-- The method `(c *nvidaCollector) Update(ch)`: one scan.  The result holds everything
sent on `ch` (among the events) and the error returned. -/
def Update (c : nvidaCollector) (lib : Library) : Run :=
  (libCall .Initialize).andThen <|
  (match lib.Initialize with
   | some err =>
      logFatalf ("Couldn't initialize gonvml: " ++ err ++
        ". Make sure NVML is in the shared library search path.")
   | none => { events := [], flow := .normal }).andThen <|
  withDefer (libCall .Shutdown) (afterDefer c lib)

/-! ## Notions used in the statements and proofs -/

/-- The telemetry calls of one iteration, in source order. -/
inductive Field where
  | SystemDriverVersion
  | MemoryInfo
  | PowerUsage
  | Temperature
  | GetProcessInfo
  | UtilizationRates
  | AverageGPUUtilization
  deriving DecidableEq, Repr

/-- The metrics the collector built by `NewCollector` derives from the answer to one
telemetry call. -/
def fieldMetrics (d : DeviceResponses) (minor uuid name : String) : Field → List Metric
  | .SystemDriverVersion =>
    match d.SystemDriverVersion with
    | .error _ => []
    | .ok deviceInfo => [⟨NewCollector.1.deviceInfo, .CounterValue, 0, [minor, uuid, name, deviceInfo]⟩]
  | .MemoryInfo =>
    match d.MemoryInfo with
    | .error _ => []
    | .ok (memoryTotal, memoryUsed) =>
      [⟨NewCollector.1.memoryUsed, .GaugeValue, memoryUsed, [minor, uuid, name]⟩,
       ⟨NewCollector.1.memoryTotal, .GaugeValue, memoryTotal, [minor, uuid, name]⟩]
  | .PowerUsage =>
    match d.PowerUsage with
    | .error _ => []
    | .ok powerUsage => [⟨NewCollector.1.powerUsage, .GaugeValue, powerUsage, [minor, uuid, name]⟩]
  | .Temperature =>
    match d.Temperature with
    | .error _ => []
    | .ok temperature => [⟨NewCollector.1.temperature, .GaugeValue, temperature, [minor, uuid, name]⟩]
  | .GetProcessInfo =>
    match d.GetProcessInfo with
    | .error _ => []
    | .ok processInfo => processInfo.map fun process =>
      ⟨NewCollector.1.processInfo, .GaugeValue, process.UsedMemory,
        [minor, Sprint process.PID, process.Name]⟩
  | .UtilizationRates =>
    match d.UtilizationRates with
    | .error _ => []
    | .ok (utilizationGPU, utilizationMemory) =>
      [⟨NewCollector.1.utilizationGPU, .GaugeValue, utilizationGPU, [minor, uuid, name]⟩,
       ⟨NewCollector.1.utilizationMemory, .GaugeValue, utilizationMemory, [minor, uuid, name]⟩]
  | .AverageGPUUtilization =>
    match d.AverageGPUUtilization with
    | .error _ => []
    | .ok utilizationGPUAverage =>
      [⟨NewCollector.1.utilizationGPUAverage, .GaugeValue, utilizationGPUAverage,
        [minor, uuid, name]⟩]

/-- The fields in the order `Update` queries them. -/
def Field.sourceOrder : List Field :=
  [.SystemDriverVersion, .MemoryInfo, .PowerUsage, .Temperature, .GetProcessInfo,
   .UtilizationRates, .AverageGPUUtilization]

/-- The events of the block that follows a telemetry call: one log line when the call
failed, the metrics otherwise. -/
def blockEvents {α : Type} (msg : String) (r : Except GoError α) (metrics : List Metric) :
    List Event :=
  match r with
  | .error err => [.log (msg ++ err)]
  | .ok _ => metrics.map .send

/-- The events of the telemetry part of one iteration, for the collector built by
`NewCollector`. -/
def fieldsEvents (d : DeviceResponses) (i : Nat) (minor uuid name : String) : List Event :=
  .call .SystemDriverVersion ::
    blockEvents "SystemDriverVersion() error: " d.SystemDriverVersion
      (fieldMetrics d minor uuid name .SystemDriverVersion) ++
  .call (.MemoryInfo i) ::
    blockEvents "MemoryInfo() error: " d.MemoryInfo
      (fieldMetrics d minor uuid name .MemoryInfo) ++
  .call (.PowerUsage i) ::
    blockEvents "PowerUsage() error: " d.PowerUsage
      (fieldMetrics d minor uuid name .PowerUsage) ++
  .call (.Temperature i) ::
    blockEvents "Temperature() error: " d.Temperature
      (fieldMetrics d minor uuid name .Temperature) ++
  .call (.GetProcessInfo i) ::
    blockEvents "ProcessInfo() error: " d.GetProcessInfo
      (fieldMetrics d minor uuid name .GetProcessInfo) ++
  .call (.UtilizationRates i) ::
    blockEvents "UtilizationRates() error: " d.UtilizationRates
      (fieldMetrics d minor uuid name .UtilizationRates) ++
  .call (.AverageGPUUtilization i averageDuration) ::
    blockEvents "AverageGPUUtilization() error: " d.AverageGPUUtilization
      (fieldMetrics d minor uuid name .AverageGPUUtilization)

/-- The metrics sent during loop iteration `i`. -/
def deviceSamples (c : nvidaCollector) (lib : Library) (i : Nat) : List Metric :=
  (loopBody c lib i).samples

/-- The `device_count` metric for an enumerated count `n`. -/
def countMetric (c : nvidaCollector) (n : Nat) : Metric :=
  { desc := c.deviceCount, valueType := .CounterValue, value := n, labelValues := [] }

/-- The events of one loop iteration, for the collector built by `NewCollector`. -/
def bodyEvents (d : DeviceResponses) (i : Nat) : List Event :=
  .call (.DeviceHandleByIndex i) ::
  match d.DeviceHandleByIndex with
  | .error err => [.log ("DeviceHandleByIndex(" ++ toString i ++ ") error: " ++ err)]
  | .ok _ =>
    .call (.MinorNumber i) ::
    match d.MinorNumber with
    | .error err => [.log ("MinorNumber() error: " ++ err)]
    | .ok minorNumber =>
      .call (.UUID i) ::
      match d.UUID with
      | .error err => [.log ("UUID() error: " ++ err)]
      | .ok uuid =>
        .call (.Name i) ::
        match d.Name with
        | .error err => [.log ("Name() error: " ++ err)]
        | .ok name => fieldsEvents d i (Itoa (intOfUint minorNumber)) uuid name

/-- The descriptors of the metrics derived from one telemetry call. -/
def Field.descs (c : nvidaCollector) : Field → List Desc
  | .SystemDriverVersion => [c.deviceInfo]
  | .MemoryInfo => [c.memoryUsed, c.memoryTotal]
  | .PowerUsage => [c.powerUsage]
  | .Temperature => [c.temperature]
  | .GetProcessInfo => [c.processInfo]
  | .UtilizationRates => [c.utilizationGPU, c.utilizationMemory]
  | .AverageGPUUtilization => [c.utilizationGPUAverage]

/-- The index of a `DeviceHandleByIndex` call. -/
def Call.handleIndex : Call → Option Nat
  | .DeviceHandleByIndex i => some i
  | _ => none

/-- The library that answers `d` during iteration `i` and like `lib` otherwise. -/
def Library.withDevice (lib : Library) (i : Nat) (d : DeviceResponses) : Library :=
  { lib with device := fun j => if j = i then d else lib.device j }

/-- The descriptors `NewCollector` declares with the package variable `labels`. -/
def identityDescs (c : nvidaCollector) : List Desc :=
  [c.memoryUsed, c.memoryTotal, c.powerUsage, c.temperature, c.utilizationGPU,
   c.utilizationMemory, c.utilizationGPUAverage]

/-- The answers `d` with the call `f` failing with `err` instead. -/
def DeviceResponses.fail (d : DeviceResponses) (f : Field) (err : GoError) : DeviceResponses :=
  match f with
  | .SystemDriverVersion => { d with SystemDriverVersion := .error err }
  | .MemoryInfo => { d with MemoryInfo := .error err }
  | .PowerUsage => { d with PowerUsage := .error err }
  | .Temperature => { d with Temperature := .error err }
  | .GetProcessInfo => { d with GetProcessInfo := .error err }
  | .UtilizationRates => { d with UtilizationRates := .error err }
  | .AverageGPUUtilization => { d with AverageGPUUtilization := .error err }

/-- A piece of code that neither exits the process nor calls `Shutdown`. -/
def Run.KeepsSession (r : Run) : Prop :=
  (∀ code, r.flow ≠ .exited code) ∧ Event.call .Shutdown ∉ r.events

/-! ## Library answers used as concrete inputs -/

/-- A device that answers every call: minor number `k`, two processes. -/
def healthyDevice (k : Nat) : DeviceResponses :=
  { DeviceHandleByIndex := .ok ()
    MinorNumber := .ok k
    UUID := .ok "GPU-a"
    Name := .ok "Tesla"
    SystemDriverVersion := .ok "418.67"
    MemoryInfo := .ok (16, 4)
    PowerUsage := .ok 50
    Temperature := .ok 40
    GetProcessInfo := .ok [{ PID := 7, Name := "python", UsedMemory := 3 },
                            { PID := 9, Name := "xorg", UsedMemory := 1 }]
    UtilizationRates := .ok (90, 30)
    AverageGPUUtilization := .ok 80 }

/-- A library with `n` healthy devices. -/
def healthyLibrary (n : Nat) : Library :=
  { Initialize := none, DeviceCount := .ok n, device := healthyDevice }

/-- A library whose `Initialize` fails. -/
def uninitializedLibrary : Library :=
  { Initialize := some "could not load NVML library", DeviceCount := .ok 1,
    device := healthyDevice }

/-- A library whose `DeviceCount` fails. -/
def uncountableLibrary : Library :=
  { Initialize := none, DeviceCount := .error "Unknown Error", device := healthyDevice }

/-- A library that reports `n` devices and fails every handle lookup. -/
def unreachableLibrary (n : Nat) : Library :=
  { Initialize := none, DeviceCount := .ok n,
    device := fun k => { healthyDevice k with DeviceHandleByIndex := .error "GPU is lost" } }

/-- A library with `n` devices, all healthy except that `MinorNumber` fails during
iteration 1. -/
def anonymousSecondLibrary (n : Nat) : Library :=
  (healthyLibrary n).withDevice 1 { healthyDevice 1 with MinorNumber := .error "Not Supported" }

/-- The library of the scenario: two devices, the first healthy, the second healthy
except that `MemoryInfo` fails. -/
def memoryFailureLibrary : Library :=
  (healthyLibrary 2).withDevice 1 (((healthyLibrary 2).device 1).fail .MemoryInfo "Unknown Error")

/-- A library with `n` healthy devices on which no process runs. -/
def idleLibrary (n : Nat) : Library :=
  { Initialize := none, DeviceCount := .ok n,
    device := fun k => { healthyDevice k with GetProcessInfo := .ok [] } }

/-! ## Lemmas: sequencing, the trace of a scan, the metrics of an iteration -/

theorem Run.andThen_normal (es : List Event) (k : Run) :
    Run.andThen { events := es, flow := .normal } k = { events := es ++ k.events, flow := k.flow } :=
  rfl

theorem Run.andThen_of_normal {r : Run} (h : r.flow = .normal) (k : Run) :
    r.andThen k = { events := r.events ++ k.events, flow := k.flow } := by
  unfold Run.andThen
  rw [h]

theorem Run.seq_of_normal (rs : List Run) (h : ∀ r ∈ rs, r.flow = .normal) :
    Run.seq rs = { events := rs.flatMap Run.events, flow := .normal } := by
  induction rs with
  | nil => rfl
  | cons r rs ih =>
    have hr : r.flow = .normal := h r (List.mem_cons_self _ _)
    have hrs : ∀ x ∈ rs, x.flow = .normal := fun x hx => h x (List.mem_cons_of_mem _ hx)
    simp [Run.seq, Run.andThen_of_normal hr, ih hrs]

theorem sendMustNewConstMetric_ok {desc : Desc} {labelValues : List String}
    (h : labelValues.length = desc.variableLabels.length) (valueType : ValueType) (value : Nat) :
    sendMustNewConstMetric desc valueType value labelValues =
      { events := [.send { desc := desc, valueType := valueType, value := value,
                           labelValues := labelValues }],
        flow := .normal } := by
  simp [sendMustNewConstMetric, NewConstMetric, h]

/-- The loop over the process list, when the descriptor declares three labels. -/
theorem seq_processInfo (desc : Desc) (h : desc.variableLabels.length = 3) (minor : String)
    (ps : List ProcessInfo) :
    Run.seq (ps.map fun process =>
        sendMustNewConstMetric desc .GaugeValue process.UsedMemory
          [minor, Sprint process.PID, process.Name]) =
      { events := ps.map fun process => .send
          { desc := desc, valueType := .GaugeValue, value := process.UsedMemory,
            labelValues := [minor, Sprint process.PID, process.Name] },
        flow := .normal } := by
  induction ps with
  | nil => rfl
  | cons p ps ih =>
    have hp : [minor, Sprint p.PID, p.Name].length = desc.variableLabels.length := by simp [h]
    simp only [List.map_cons, Run.seq, sendMustNewConstMetric_ok hp, ih, Run.andThen_normal]
    rfl

theorem sampleDriverInfo_eq (d : DeviceResponses) (minor uuid name : String) :
    sampleDriverInfo NewCollector.1 minor uuid name d.SystemDriverVersion =
      { events := blockEvents "SystemDriverVersion() error: " d.SystemDriverVersion
          (fieldMetrics d minor uuid name .SystemDriverVersion),
        flow := .normal } := by
  unfold sampleDriverInfo blockEvents fieldMetrics
  cases d.SystemDriverVersion <;> simp [logPrintf, sendMustNewConstMetric, NewConstMetric,
    NewCollector, NewDesc]

theorem sampleMemoryInfo_eq (d : DeviceResponses) (minor uuid name : String) :
    sampleMemoryInfo NewCollector.1 minor uuid name d.MemoryInfo =
      { events := blockEvents "MemoryInfo() error: " d.MemoryInfo
          (fieldMetrics d minor uuid name .MemoryInfo),
        flow := .normal } := by
  unfold sampleMemoryInfo blockEvents fieldMetrics
  cases d.MemoryInfo <;> simp [logPrintf, sendMustNewConstMetric, NewConstMetric,
    NewCollector, NewDesc, labels, Run.seq, Run.andThen]

theorem samplePowerUsage_eq (d : DeviceResponses) (minor uuid name : String) :
    samplePowerUsage NewCollector.1 minor uuid name d.PowerUsage =
      { events := blockEvents "PowerUsage() error: " d.PowerUsage
          (fieldMetrics d minor uuid name .PowerUsage),
        flow := .normal } := by
  unfold samplePowerUsage blockEvents fieldMetrics
  cases d.PowerUsage <;> simp [logPrintf, sendMustNewConstMetric, NewConstMetric,
    NewCollector, NewDesc, labels]

theorem sampleTemperature_eq (d : DeviceResponses) (minor uuid name : String) :
    sampleTemperature NewCollector.1 minor uuid name d.Temperature =
      { events := blockEvents "Temperature() error: " d.Temperature
          (fieldMetrics d minor uuid name .Temperature),
        flow := .normal } := by
  unfold sampleTemperature blockEvents fieldMetrics
  cases d.Temperature <;> simp [logPrintf, sendMustNewConstMetric, NewConstMetric,
    NewCollector, NewDesc, labels]

theorem sampleProcessInfo_eq (d : DeviceResponses) (minor uuid name : String) :
    sampleProcessInfo NewCollector.1 minor d.GetProcessInfo =
      { events := blockEvents "ProcessInfo() error: " d.GetProcessInfo
          (fieldMetrics d minor uuid name .GetProcessInfo),
        flow := .normal } := by
  unfold sampleProcessInfo blockEvents fieldMetrics
  have h3 : NewCollector.1.processInfo.variableLabels.length = 3 := rfl
  cases d.GetProcessInfo <;> simp [logPrintf, seq_processInfo _ h3]

theorem sampleUtilizationRates_eq (d : DeviceResponses) (minor uuid name : String) :
    sampleUtilizationRates NewCollector.1 minor uuid name d.UtilizationRates =
      { events := blockEvents "UtilizationRates() error: " d.UtilizationRates
          (fieldMetrics d minor uuid name .UtilizationRates),
        flow := .normal } := by
  unfold sampleUtilizationRates blockEvents fieldMetrics
  cases d.UtilizationRates <;> simp [logPrintf, sendMustNewConstMetric, NewConstMetric,
    NewCollector, NewDesc, labels, Run.seq, Run.andThen]

theorem sampleAverageGPUUtilization_eq (d : DeviceResponses) (minor uuid name : String) :
    sampleAverageGPUUtilization NewCollector.1 minor uuid name d.AverageGPUUtilization =
      { events := blockEvents "AverageGPUUtilization() error: " d.AverageGPUUtilization
          (fieldMetrics d minor uuid name .AverageGPUUtilization),
        flow := .normal } := by
  unfold sampleAverageGPUUtilization blockEvents fieldMetrics
  cases d.AverageGPUUtilization <;> simp [logPrintf, sendMustNewConstMetric, NewConstMetric,
    NewCollector, NewDesc, labels]

theorem sampleFields_eq (d : DeviceResponses) (i : Nat) (minor uuid name : String) :
    sampleFields NewCollector.1 d i minor uuid name =
      { events := fieldsEvents d i minor uuid name, flow := .normal } := by
  unfold sampleFields fieldsEvents
  rw [sampleDriverInfo_eq, sampleMemoryInfo_eq, samplePowerUsage_eq, sampleTemperature_eq,
    sampleProcessInfo_eq d minor uuid name, sampleUtilizationRates_eq,
    sampleAverageGPUUtilization_eq]
  simp [Run.seq, Run.andThen, libCall]

theorem loopBody_eq (lib : Library) (i : Nat) :
    loopBody NewCollector.1 lib i =
      { events := bodyEvents (lib.device i) i, flow := .normal } := by
  unfold loopBody bodyEvents
  cases (lib.device i).DeviceHandleByIndex with
  | error e => simp [libCall, logPrintf, Run.andThen]
  | ok _ =>
    cases (lib.device i).MinorNumber with
    | error e => simp [libCall, logPrintf, Run.andThen]
    | ok m =>
      cases (lib.device i).UUID with
      | error e => simp [libCall, logPrintf, Run.andThen]
      | ok u =>
        cases (lib.device i).Name with
        | error e => simp [libCall, logPrintf, Run.andThen]
        | ok nm => simp [libCall, Run.andThen, sampleFields_eq]

theorem deviceLoop_eq (lib : Library) (i k : Nat) :
    deviceLoop NewCollector.1 lib i k =
      { events := (List.range' i k).flatMap fun j => bodyEvents (lib.device j) j,
        flow := .normal } := by
  induction k generalizing i with
  | zero => simp [deviceLoop]
  | succ k ih =>
    simp [deviceLoop, loopBody_eq, ih, Run.andThen, List.range'_succ]

/-- A scan by the collector of `NewCollector` after a successful `Initialize` and a
successful `DeviceCount`: the trace and the result. -/
theorem Update_eq_of_count (lib : Library) (n : Nat) (hinit : lib.Initialize = none)
    (hcount : lib.DeviceCount = .ok n) :
    Update NewCollector.1 lib =
      { events := [.call .Initialize, .call .DeviceCount, .send (countMetric NewCollector.1 n)] ++
          ((List.range' 0 (intOfUint n).toNat).flatMap fun j => bodyEvents (lib.device j) j) ++
          [.call .Shutdown],
        flow := .returned none } := by
  unfold Update afterDefer
  rw [hinit, hcount]
  have h0 : ([] : List String).length = NewCollector.1.deviceCount.variableLabels.length := rfl
  simp [Run.seq, Run.andThen, libCall, withDefer, goReturn, deviceLoop_eq,
    sendMustNewConstMetric_ok h0, countMetric]

theorem intOfUint_toNat {n : Nat} (h : n < 2 ^ 63) : (intOfUint n).toNat = n := by
  have h64 : n % 2 ^ 64 = n := Nat.mod_eq_of_lt (by omega)
  unfold intOfUint
  rw [h64, if_pos h]
  rfl

theorem bodyEvents_samples (lib : Library) (i : Nat) :
    deviceSamples NewCollector.1 lib i =
      Run.samples { events := bodyEvents (lib.device i) i, flow := .normal } := by
  simp [deviceSamples, loopBody_eq]

theorem Update_samples (lib : Library) (n : Nat) (hinit : lib.Initialize = none)
    (hcount : lib.DeviceCount = .ok n) :
    (Update NewCollector.1 lib).samples =
      countMetric NewCollector.1 n ::
        (List.range (intOfUint n).toNat).flatMap (deviceSamples NewCollector.1 lib) := by
  rw [Update_eq_of_count lib n hinit hcount]
  have hd : deviceSamples NewCollector.1 lib = fun j =>
      Run.samples { events := bodyEvents (lib.device j) j, flow := .normal } :=
    funext fun j => bodyEvents_samples lib j
  rw [hd]
  simp [Run.samples, List.filterMap_append, List.range_eq_range', List.filterMap_flatMap,
    List.filterMap_cons, Event.sent]

theorem blockEvents_sent {α : Type} (msg : String) (r : Except GoError α)
    (metrics : List Metric) (h : ∀ e, r = .error e → metrics = []) :
    (blockEvents msg r metrics).filterMap Event.sent = metrics := by
  cases r with
  | error e => simp [blockEvents, Event.sent, h e rfl]
  | ok v => simp [blockEvents, List.filterMap_map, Function.comp_def, Event.sent]

theorem blockEvents_called {α : Type} (msg : String) (r : Except GoError α)
    (metrics : List Metric) :
    (blockEvents msg r metrics).filterMap Event.called = [] := by
  cases r with
  | error e => simp [blockEvents, Event.called]
  | ok v => simp [blockEvents, List.filterMap_map, Function.comp_def, Event.called]

theorem fieldMetrics_of_error (d : DeviceResponses) (minor uuid name : String) :
    (∀ e, d.SystemDriverVersion = .error e →
        fieldMetrics d minor uuid name .SystemDriverVersion = []) ∧
    (∀ e, d.MemoryInfo = .error e → fieldMetrics d minor uuid name .MemoryInfo = []) ∧
    (∀ e, d.PowerUsage = .error e → fieldMetrics d minor uuid name .PowerUsage = []) ∧
    (∀ e, d.Temperature = .error e → fieldMetrics d minor uuid name .Temperature = []) ∧
    (∀ e, d.GetProcessInfo = .error e → fieldMetrics d minor uuid name .GetProcessInfo = []) ∧
    (∀ e, d.UtilizationRates = .error e →
        fieldMetrics d minor uuid name .UtilizationRates = []) ∧
    (∀ e, d.AverageGPUUtilization = .error e →
        fieldMetrics d minor uuid name .AverageGPUUtilization = []) := by
  refine ⟨?_, ?_, ?_, ?_, ?_, ?_, ?_⟩ <;> intro e h <;> simp [fieldMetrics, h]

theorem fieldsEvents_sent (d : DeviceResponses) (i : Nat) (minor uuid name : String) :
    (fieldsEvents d i minor uuid name).filterMap Event.sent =
      Field.sourceOrder.flatMap (fieldMetrics d minor uuid name) := by
  obtain ⟨h1, h2, h3, h4, h5, h6, h7⟩ := fieldMetrics_of_error d minor uuid name
  simp [fieldsEvents, Field.sourceOrder, List.filterMap_append, List.filterMap_cons,
    Event.sent, blockEvents_sent _ _ _ h1, blockEvents_sent _ _ _ h2,
    blockEvents_sent _ _ _ h3, blockEvents_sent _ _ _ h4, blockEvents_sent _ _ _ h5,
    blockEvents_sent _ _ _ h6, blockEvents_sent _ _ _ h7]

theorem fieldsEvents_called (d : DeviceResponses) (i : Nat) (minor uuid name : String) :
    (fieldsEvents d i minor uuid name).filterMap Event.called =
      [.SystemDriverVersion, .MemoryInfo i, .PowerUsage i, .Temperature i, .GetProcessInfo i,
       .UtilizationRates i, .AverageGPUUtilization i averageDuration] := by
  simp [fieldsEvents, List.filterMap_append, List.filterMap_cons, Event.called,
    blockEvents_called]

/-- The metrics of an iteration whose handle lookup and identity calls all succeed. -/
theorem deviceSamples_of_identity (lib : Library) (i : Nat) {m : Nat} {u nm : String}
    (hh : (lib.device i).DeviceHandleByIndex = .ok ())
    (hm : (lib.device i).MinorNumber = .ok m) (hu : (lib.device i).UUID = .ok u)
    (hn : (lib.device i).Name = .ok nm) :
    deviceSamples NewCollector.1 lib i =
      Field.sourceOrder.flatMap (fieldMetrics (lib.device i) (Itoa (intOfUint m)) u nm) := by
  rw [bodyEvents_samples]
  simp [Run.samples, bodyEvents, hh, hm, hu, hn, Event.sent, fieldsEvents_sent]

/-- An iteration whose handle lookup fails sends nothing. -/
theorem deviceSamples_of_handle_error (lib : Library) (i : Nat) {e : GoError}
    (hh : (lib.device i).DeviceHandleByIndex = .error e) :
    deviceSamples NewCollector.1 lib i = [] := by
  rw [bodyEvents_samples]
  simp [Run.samples, bodyEvents, hh, Event.sent]

/-- An iteration in which one of the identity calls fails sends nothing. -/
theorem deviceSamples_of_identity_error (lib : Library) (i : Nat)
    (h : (∃ e, (lib.device i).MinorNumber = .error e) ∨
         (∃ e, (lib.device i).UUID = .error e) ∨ (∃ e, (lib.device i).Name = .error e)) :
    deviceSamples NewCollector.1 lib i = [] := by
  rw [bodyEvents_samples]
  unfold bodyEvents
  cases hh : (lib.device i).DeviceHandleByIndex with
  | error e => simp [Run.samples, Event.sent]
  | ok _ =>
    cases hm : (lib.device i).MinorNumber with
    | error e => simp [Run.samples, Event.sent]
    | ok m =>
      cases hu : (lib.device i).UUID with
      | error e => simp [Run.samples, Event.sent]
      | ok u =>
        cases hn : (lib.device i).Name with
        | error e => simp [Run.samples, Event.sent]
        | ok nm => simp [hm, hu, hn] at h

theorem fieldMetrics_desc (d : DeviceResponses) (minor uuid name : String) (f : Field)
    (s : Metric) (hs : s ∈ fieldMetrics d minor uuid name f) :
    s.desc ∈ f.descs NewCollector.1 := by
  cases f <;> simp only [fieldMetrics] at hs <;> split at hs <;>
    simp at hs <;> (try rcases hs with rfl | rfl) <;>
    (try (obtain ⟨p, -, rfl⟩ := hs)) <;> simp [Field.descs]

theorem mem_deviceSamples (lib : Library) (i : Nat) (s : Metric)
    (hs : s ∈ deviceSamples NewCollector.1 lib i) :
    ∃ m u nm, (lib.device i).DeviceHandleByIndex = .ok () ∧
      (lib.device i).MinorNumber = .ok m ∧ (lib.device i).UUID = .ok u ∧
      (lib.device i).Name = .ok nm ∧
      ∃ f, s ∈ fieldMetrics (lib.device i) (Itoa (intOfUint m)) u nm f := by
  cases hh : (lib.device i).DeviceHandleByIndex with
  | error e => simp [deviceSamples_of_handle_error lib i hh] at hs
  | ok _ =>
    cases hm : (lib.device i).MinorNumber with
    | error e => simp [deviceSamples_of_identity_error lib i (Or.inl ⟨e, hm⟩)] at hs
    | ok m =>
      cases hu : (lib.device i).UUID with
      | error e => simp [deviceSamples_of_identity_error lib i (Or.inr (Or.inl ⟨e, hu⟩))] at hs
      | ok u =>
        cases hn : (lib.device i).Name with
        | error e =>
          simp [deviceSamples_of_identity_error lib i (Or.inr (Or.inr ⟨e, hn⟩))] at hs
        | ok nm =>
          rw [deviceSamples_of_identity lib i hh hm hu hn] at hs
          obtain ⟨f, -, hf⟩ := List.mem_flatMap.1 hs
          exact ⟨m, u, nm, rfl, rfl, rfl, rfl, f, hf⟩

/-- A scan whose `Initialize` fails, for any collector. -/
theorem Update_eq_of_initialize_error (c : nvidaCollector) (lib : Library) (err : GoError)
    (hinit : lib.Initialize = some err) :
    Update c lib =
      { events := [.call .Initialize,
          .log ("Couldn't initialize gonvml: " ++ err ++
            ". Make sure NVML is in the shared library search path.")],
        flow := .exited 1 } := by
  unfold Update
  rw [hinit]
  simp [Run.andThen, libCall, logFatalf]

/-- A scan whose `DeviceCount` fails, for any collector. -/
theorem Update_eq_of_deviceCount_error (c : nvidaCollector) (lib : Library) (err : GoError)
    (hinit : lib.Initialize = none) (hcount : lib.DeviceCount = .error err) :
    Update c lib =
      { events := [.call .Initialize, .call .DeviceCount,
          .log ("DeviceCount() error: " ++ err), .call .Shutdown],
        flow := .returned (some err) } := by
  unfold Update afterDefer
  rw [hinit, hcount]
  simp [Run.andThen, libCall, logPrintf, goReturn, withDefer]

theorem deviceCount_not_mem_descs (f : Field) :
    NewCollector.1.deviceCount ∉ f.descs NewCollector.1 := by
  cases f <;> decide

theorem deviceSamples_desc_ne_deviceCount (lib : Library) (i : Nat) (s : Metric)
    (hs : s ∈ deviceSamples NewCollector.1 lib i) : s.desc ≠ NewCollector.1.deviceCount := by
  obtain ⟨m, u, nm, -, -, -, -, f, hf⟩ := mem_deviceSamples lib i s hs
  intro h
  exact deviceCount_not_mem_descs f (h ▸ fieldMetrics_desc _ _ _ _ f s hf)

/-- Metrics derived from a call other than `SystemDriverVersion` and `GetProcessInfo`
carry the three identity labels, under a descriptor declaring exactly their names. -/
theorem fieldMetrics_identity_labels (d : DeviceResponses) (minor uuid name : String)
    (f : Field) (hf1 : f ≠ .SystemDriverVersion) (hf2 : f ≠ .GetProcessInfo) (s : Metric)
    (hs : s ∈ fieldMetrics d minor uuid name f) :
    s.labelValues = [minor, uuid, name] ∧
    s.desc.variableLabels = ["minor_number", "uuid", "name"] := by
  cases f <;> first
    | exact absurd rfl hf1
    | exact absurd rfl hf2
    | (simp only [fieldMetrics] at hs
       split at hs <;> simp at hs
       (try rcases hs with rfl | rfl) <;> exact ⟨rfl, rfl⟩)

theorem fieldMetrics_driver (d : DeviceResponses) (minor uuid name : String) (s : Metric)
    (hs : s ∈ fieldMetrics d minor uuid name .SystemDriverVersion) :
    ∃ v, d.SystemDriverVersion = .ok v ∧
      s = ⟨NewCollector.1.deviceInfo, .CounterValue, 0, [minor, uuid, name, v]⟩ := by
  simp only [fieldMetrics] at hs
  split at hs
  · simp at hs
  · rename_i v hv
    simp at hs
    exact ⟨v, hv, hs⟩

theorem fieldMetrics_process (d : DeviceResponses) (minor uuid name : String) (s : Metric)
    (hs : s ∈ fieldMetrics d minor uuid name .GetProcessInfo) :
    ∃ ps p, d.GetProcessInfo = .ok ps ∧ p ∈ ps ∧
      s = ⟨NewCollector.1.processInfo, .GaugeValue, p.UsedMemory,
        [minor, Sprint p.PID, p.Name]⟩ := by
  simp only [fieldMetrics] at hs
  split at hs
  · simp at hs
  · rename_i ps hps
    obtain ⟨p, hp, rfl⟩ := List.mem_map.1 hs
    exact ⟨ps, p, hps, hp, rfl⟩

theorem bodyEvents_handleIndex (d : DeviceResponses) (i : Nat) :
    ((bodyEvents d i).filterMap Event.called).filterMap Call.handleIndex = [i] := by
  unfold bodyEvents
  cases d.DeviceHandleByIndex with
  | error e => simp [Event.called, Call.handleIndex]
  | ok _ =>
    cases d.MinorNumber with
    | error e => simp [Event.called, Call.handleIndex]
    | ok m =>
      cases d.UUID with
      | error e => simp [Event.called, Call.handleIndex]
      | ok u =>
        cases d.Name with
        | error e => simp [Event.called, Call.handleIndex]
        | ok nm => simp [Event.called, Call.handleIndex, fieldsEvents_called]

theorem Update_handleIndex (lib : Library) (n : Nat) (hinit : lib.Initialize = none)
    (hcount : lib.DeviceCount = .ok n) :
    (Update NewCollector.1 lib).calls.filterMap Call.handleIndex =
      List.range (intOfUint n).toNat := by
  rw [Update_eq_of_count lib n hinit hcount]
  simp [Run.calls, List.filterMap_append, List.filterMap_cons, Event.called,
    Call.handleIndex, List.filterMap_flatMap, bodyEvents_handleIndex,
    List.range_eq_range']

theorem range_split {i n : Nat} (hi : i < n) :
    List.range n = List.range i ++ i :: List.range' (i + 1) (n - (i + 1)) := by
  rw [List.range_eq_range', List.range_eq_range']
  have h1 : List.range' 0 n = List.range' 0 i ++ List.range' (0 + i) (n - i) := by
    rw [List.range'_append_1]
    congr 1
    omega
  have h2 : n - i = (n - (i + 1)) + 1 := by omega
  rw [h1, h2, List.range'_succ]
  simp

/-- The metrics of a scan over `n` devices, split around iteration `i`. -/
theorem Update_samples_split (lib : Library) (n i : Nat) (hinit : lib.Initialize = none)
    (hcount : lib.DeviceCount = .ok n) (hn : n < 2 ^ 63) (hi : i < n) :
    (Update NewCollector.1 lib).samples =
      countMetric NewCollector.1 n ::
        ((List.range i).flatMap (deviceSamples NewCollector.1 lib) ++
          deviceSamples NewCollector.1 lib i ++
          (List.range' (i + 1) (n - (i + 1))).flatMap (deviceSamples NewCollector.1 lib)) := by
  rw [Update_samples lib n hinit hcount, intOfUint_toNat hn, range_split hi]
  simp

theorem loopBody_congr (c : nvidaCollector) (lib lib' : Library) (j : Nat)
    (h : lib'.device j = lib.device j) : loopBody c lib' j = loopBody c lib j := by
  unfold loopBody
  rw [h]

theorem deviceSamples_withDevice_of_ne (c : nvidaCollector) (lib : Library) (i j : Nat)
    (d : DeviceResponses) (h : j ≠ i) :
    deviceSamples c (lib.withDevice i d) j = deviceSamples c lib j := by
  unfold deviceSamples
  rw [loopBody_congr c lib (lib.withDevice i d) j (by simp [Library.withDevice, h])]

/-- The metrics of a scan over `n` devices after the answers of iteration `i` are
replaced: only the block of iteration `i` changes. -/
theorem Update_samples_withDevice (lib : Library) (n i : Nat) (d : DeviceResponses)
    (hinit : lib.Initialize = none) (hcount : lib.DeviceCount = .ok n) (hn : n < 2 ^ 63)
    (hi : i < n) :
    (Update NewCollector.1 (lib.withDevice i d)).samples =
      countMetric NewCollector.1 n ::
        ((List.range i).flatMap (deviceSamples NewCollector.1 lib) ++
          deviceSamples NewCollector.1 (lib.withDevice i d) i ++
          (List.range' (i + 1) (n - (i + 1))).flatMap (deviceSamples NewCollector.1 lib)) := by
  rw [Update_samples_split (lib.withDevice i d) n i hinit hcount hn hi]
  have h1 : (List.range i).flatMap (deviceSamples NewCollector.1 (lib.withDevice i d)) =
      (List.range i).flatMap (deviceSamples NewCollector.1 lib) :=
    List.flatMap_congr fun j hj =>
      deviceSamples_withDevice_of_ne _ lib i j d (by
        have := List.mem_range.1 hj
        omega)
  have h2 : (List.range' (i + 1) (n - (i + 1))).flatMap
        (deviceSamples NewCollector.1 (lib.withDevice i d)) =
      (List.range' (i + 1) (n - (i + 1))).flatMap (deviceSamples NewCollector.1 lib) :=
    List.flatMap_congr fun j hj =>
      deviceSamples_withDevice_of_ne _ lib i j d (by
        have := (List.mem_range'_1.1 hj).1
        omega)
  rw [h1, h2]

theorem Itoa_intOfUint {m : Nat} (h : m < 2 ^ 63) : Itoa (intOfUint m) = toString m := by
  have h64 : m % 2 ^ 64 = m := Nat.mod_eq_of_lt (by omega)
  unfold Itoa intOfUint
  rw [h64, if_pos h]
  rfl

theorem mem_identityDescs_of_mem_descs (f : Field) (hf1 : f ≠ .SystemDriverVersion)
    (hf2 : f ≠ .GetProcessInfo) (desc : Desc) (hd : desc ∈ f.descs NewCollector.1) :
    desc ∈ identityDescs NewCollector.1 := by
  cases f
  · exact absurd rfl hf1
  · exact (by decide : ∀ x ∈ Field.descs NewCollector.1 .MemoryInfo,
      x ∈ identityDescs NewCollector.1) desc hd
  · exact (by decide : ∀ x ∈ Field.descs NewCollector.1 .PowerUsage,
      x ∈ identityDescs NewCollector.1) desc hd
  · exact (by decide : ∀ x ∈ Field.descs NewCollector.1 .Temperature,
      x ∈ identityDescs NewCollector.1) desc hd
  · exact absurd rfl hf2
  · exact (by decide : ∀ x ∈ Field.descs NewCollector.1 .UtilizationRates,
      x ∈ identityDescs NewCollector.1) desc hd
  · exact (by decide : ∀ x ∈ Field.descs NewCollector.1 .AverageGPUUtilization,
      x ∈ identityDescs NewCollector.1) desc hd

theorem deviceInfo_not_mem_identityDescs :
    NewCollector.1.deviceInfo ∉ identityDescs NewCollector.1 := by decide

theorem processInfo_not_mem_identityDescs :
    NewCollector.1.processInfo ∉ identityDescs NewCollector.1 := by decide

theorem deviceInfo_ne_processInfo : NewCollector.1.deviceInfo ≠ NewCollector.1.processInfo := by
  decide

theorem fail_identity (d : DeviceResponses) (f : Field) (err : GoError) :
    (d.fail f err).DeviceHandleByIndex = d.DeviceHandleByIndex ∧
    (d.fail f err).MinorNumber = d.MinorNumber ∧ (d.fail f err).UUID = d.UUID ∧
    (d.fail f err).Name = d.Name := by
  cases f <;> exact ⟨rfl, rfl, rfl, rfl⟩

theorem fieldMetrics_fail_self (d : DeviceResponses) (minor uuid name : String) (f : Field)
    (err : GoError) : fieldMetrics (d.fail f err) minor uuid name f = [] := by
  cases f <;> rfl

theorem fieldMetrics_fail_of_ne (d : DeviceResponses) (minor uuid name : String)
    (f g : Field) (err : GoError) (h : g ≠ f) :
    fieldMetrics (d.fail f err) minor uuid name g = fieldMetrics d minor uuid name g := by
  cases f <;> cases g <;> first
    | exact absurd rfl h
    | rfl

theorem descs_disjoint (f g : Field) (h : g ≠ f) :
    ∀ x ∈ g.descs NewCollector.1, x ∉ f.descs NewCollector.1 := by
  cases f <;> cases g <;> first
    | exact absurd rfl h
    | decide

theorem filter_fieldMetrics (d : DeviceResponses) (minor uuid name : String) (f g : Field) :
    (fieldMetrics d minor uuid name g).filter (fun s => s.desc ∉ f.descs NewCollector.1) =
      if g = f then [] else fieldMetrics d minor uuid name g := by
  by_cases h : g = f
  · subst h
    rw [if_pos rfl, List.filter_eq_nil_iff]
    intro s hs
    simpa using fieldMetrics_desc d minor uuid name g s hs
  · rw [if_neg h, List.filter_eq_self]
    intro s hs
    simpa using descs_disjoint f g h s.desc (fieldMetrics_desc d minor uuid name g s hs)

theorem bodyEvents_sent_fail (d : DeviceResponses) (i : Nat) (f : Field) (err : GoError) :
    (bodyEvents (d.fail f err) i).filterMap Event.sent =
      ((bodyEvents d i).filterMap Event.sent).filter
        (fun s => s.desc ∉ f.descs NewCollector.1) := by
  obtain ⟨h1, h2, h3, h4⟩ := fail_identity d f err
  unfold bodyEvents
  rw [h1, h2, h3, h4]
  cases d.DeviceHandleByIndex with
  | error e => simp [Event.sent]
  | ok _ =>
    cases d.MinorNumber with
    | error e => simp [Event.sent]
    | ok m =>
      cases d.UUID with
      | error e => simp [Event.sent]
      | ok u =>
        cases d.Name with
        | error e => simp [Event.sent]
        | ok nm =>
          simp only [List.filterMap_cons, Event.sent, fieldsEvents_sent, List.filter_flatMap]
          refine List.flatMap_congr fun g _ => ?_
          rw [filter_fieldMetrics]
          by_cases h : g = f
          · subst h
            rw [if_pos rfl, fieldMetrics_fail_self]
          · rw [if_neg h, fieldMetrics_fail_of_ne _ _ _ _ f g err h]

theorem deviceSamples_fail (lib : Library) (i : Nat) (f : Field) (err : GoError) :
    deviceSamples NewCollector.1 (lib.withDevice i ((lib.device i).fail f err)) i =
      (deviceSamples NewCollector.1 lib i).filter
        (fun s => s.desc ∉ f.descs NewCollector.1) := by
  rw [bodyEvents_samples, bodyEvents_samples]
  have hd : (lib.withDevice i ((lib.device i).fail f err)).device i =
      (lib.device i).fail f err := by simp [Library.withDevice]
  simp only [Run.samples, hd]
  exact bodyEvents_sent_fail _ i f err

theorem filter_mem_fieldMetrics (d : DeviceResponses) (minor uuid name : String) (f g : Field) :
    (fieldMetrics d minor uuid name g).filter (fun s => s.desc ∈ f.descs NewCollector.1) =
      if g = f then fieldMetrics d minor uuid name g else [] := by
  by_cases h : g = f
  · subst h
    rw [if_pos rfl, List.filter_eq_self]
    intro s hs
    simpa using fieldMetrics_desc d minor uuid name g s hs
  · rw [if_neg h, List.filter_eq_nil_iff]
    intro s hs
    simpa using descs_disjoint f g h s.desc (fieldMetrics_desc d minor uuid name g s hs)

/-- Among the metrics of an iteration with a known identity, those under the descriptors
of a call are the metrics derived from that call. -/
theorem deviceSamples_filter_descs (lib : Library) (i : Nat) (f : Field) {m : Nat}
    {u nm : String} (hh : (lib.device i).DeviceHandleByIndex = .ok ())
    (hm : (lib.device i).MinorNumber = .ok m) (hu : (lib.device i).UUID = .ok u)
    (hn : (lib.device i).Name = .ok nm) :
    (deviceSamples NewCollector.1 lib i).filter (fun s => s.desc ∈ f.descs NewCollector.1) =
      fieldMetrics (lib.device i) (Itoa (intOfUint m)) u nm f := by
  rw [deviceSamples_of_identity lib i hh hm hu hn, List.filter_flatMap]
  simp only [filter_mem_fieldMetrics]
  cases f <;> simp [Field.sourceOrder]

theorem keepsSession_andThen {r k : Run} (hr : r.KeepsSession) (hk : k.KeepsSession) :
    (r.andThen k).KeepsSession := by
  unfold Run.andThen
  split
  · exact ⟨hk.1, by simpa using ⟨hr.2, hk.2⟩⟩
  · exact hr

theorem keepsSession_seq (rs : List Run) (h : ∀ r ∈ rs, r.KeepsSession) :
    (Run.seq rs).KeepsSession := by
  induction rs with
  | nil => exact ⟨fun _ => by simp [Run.seq], by simp [Run.seq]⟩
  | cons r rs ih =>
    exact keepsSession_andThen (h r (List.mem_cons_self _ _))
      (ih fun x hx => h x (List.mem_cons_of_mem _ hx))

theorem keepsSession_libCall (c : Call) (h : c ≠ .Shutdown) : (libCall c).KeepsSession := by
  refine ⟨fun _ => by simp [libCall], ?_⟩
  intro hmem
  simp [libCall] at hmem
  exact h hmem.symm

theorem keepsSession_logPrintf (msg : String) : (logPrintf msg).KeepsSession :=
  ⟨fun _ => by simp [logPrintf], by simp [logPrintf]⟩

theorem keepsSession_goReturn (err : Option GoError) : (goReturn err).KeepsSession :=
  ⟨fun _ => by simp [goReturn], by simp [goReturn]⟩

theorem keepsSession_send (desc : Desc) (valueType : ValueType) (value : Nat)
    (labelValues : List String) :
    (sendMustNewConstMetric desc valueType value labelValues).KeepsSession := by
  unfold sendMustNewConstMetric
  split
  · exact ⟨fun _ => by simp, by simp⟩
  · exact ⟨fun _ => by simp, by simp⟩

theorem keepsSession_sampleFields (c : nvidaCollector) (d : DeviceResponses) (i : Nat)
    (minor uuid name : String) : (sampleFields c d i minor uuid name).KeepsSession := by
  unfold sampleFields
  apply keepsSession_seq
  intro r hr
  simp only [List.mem_cons, List.mem_singleton, List.not_mem_nil, or_false] at hr
  rcases hr with rfl | rfl | rfl | rfl | rfl | rfl | rfl | rfl | rfl | rfl | rfl | rfl | rfl | rfl
  · exact keepsSession_libCall _ (by decide)
  · unfold sampleDriverInfo
    split
    · exact keepsSession_logPrintf _
    · exact keepsSession_send _ _ _ _
  · exact keepsSession_libCall _ (by simp)
  · unfold sampleMemoryInfo
    split
    · exact keepsSession_logPrintf _
    · exact keepsSession_seq _ (by
        intro r hr
        simp only [List.mem_cons, List.mem_singleton, List.not_mem_nil, or_false] at hr
        rcases hr with rfl | rfl <;> exact keepsSession_send _ _ _ _)
  · exact keepsSession_libCall _ (by simp)
  · unfold samplePowerUsage
    split
    · exact keepsSession_logPrintf _
    · exact keepsSession_send _ _ _ _
  · exact keepsSession_libCall _ (by simp)
  · unfold sampleTemperature
    split
    · exact keepsSession_logPrintf _
    · exact keepsSession_send _ _ _ _
  · exact keepsSession_libCall _ (by simp)
  · unfold sampleProcessInfo
    split
    · exact keepsSession_logPrintf _
    · exact keepsSession_seq _ (by
        intro r hr
        obtain ⟨p, -, rfl⟩ := List.mem_map.1 hr
        exact keepsSession_send _ _ _ _)
  · exact keepsSession_libCall _ (by simp)
  · unfold sampleUtilizationRates
    split
    · exact keepsSession_logPrintf _
    · exact keepsSession_seq _ (by
        intro r hr
        simp only [List.mem_cons, List.mem_singleton, List.not_mem_nil, or_false] at hr
        rcases hr with rfl | rfl <;> exact keepsSession_send _ _ _ _)
  · exact keepsSession_libCall _ (by simp)
  · unfold sampleAverageGPUUtilization
    split
    · exact keepsSession_logPrintf _
    · exact keepsSession_send _ _ _ _

theorem keepsSession_loopBody (c : nvidaCollector) (lib : Library) (i : Nat) :
    (loopBody c lib i).KeepsSession := by
  unfold loopBody
  refine keepsSession_andThen (keepsSession_libCall _ (by simp)) ?_
  split
  · exact keepsSession_logPrintf _
  · refine keepsSession_andThen (keepsSession_libCall _ (by simp)) ?_
    split
    · exact keepsSession_logPrintf _
    · refine keepsSession_andThen (keepsSession_libCall _ (by simp)) ?_
      split
      · exact keepsSession_logPrintf _
      · refine keepsSession_andThen (keepsSession_libCall _ (by simp)) ?_
        split
        · exact keepsSession_logPrintf _
        · exact keepsSession_sampleFields _ _ _ _ _ _

theorem keepsSession_deviceLoop (c : nvidaCollector) (lib : Library) (i k : Nat) :
    (deviceLoop c lib i k).KeepsSession := by
  induction k generalizing i with
  | zero => exact ⟨fun _ => by simp [deviceLoop], by simp [deviceLoop]⟩
  | succ k ih => exact keepsSession_andThen (keepsSession_loopBody c lib i) (ih (i + 1))

theorem keepsSession_afterDefer (c : nvidaCollector) (lib : Library) :
    (afterDefer c lib).KeepsSession := by
  unfold afterDefer
  refine keepsSession_andThen (keepsSession_libCall _ (by decide)) ?_
  split
  · exact keepsSession_andThen (keepsSession_logPrintf _) (keepsSession_goReturn _)
  · apply keepsSession_seq
    intro r hr
    simp only [List.mem_cons, List.mem_singleton, List.not_mem_nil, or_false] at hr
    rcases hr with rfl | rfl | rfl
    · exact keepsSession_send _ _ _ _
    · exact keepsSession_deviceLoop _ _ _ _
    · exact keepsSession_goReturn _

/-- A scan whose `Initialize` succeeds, for any collector: the deferred `Shutdown` ends
the trace. -/
theorem Update_eq_of_initialize_ok (c : nvidaCollector) (lib : Library)
    (hinit : lib.Initialize = none) :
    Update c lib =
      { events := .call .Initialize :: ((afterDefer c lib).events ++ [.call .Shutdown]),
        flow := (afterDefer c lib).flow } := by
  have hk := keepsSession_afterDefer c lib
  have hw : withDefer (libCall .Shutdown) (afterDefer c lib) =
      { events := (afterDefer c lib).events ++ [.call .Shutdown],
        flow := (afterDefer c lib).flow } := by
    unfold withDefer
    split
    · rename_i code hcode
      exact absurd hcode (hk.1 code)
    · rfl
  unfold Update
  rw [hinit, hw]
  simp [Run.andThen, libCall]

/-! ## The scan when `Initialize` or `DeviceCount` fails -/

/-- C4, as stated, fails: when `Initialize` fails the scan does not return the failure to
its caller; `log.Fatalf` ends the process with exit code 1. -/
theorem Update_initialize_error_exits_counterexample :
    uninitializedLibrary.Initialize = some "could not load NVML library" ∧
    (Update NewCollector.1 uninitializedLibrary).flow = .exited 1 ∧
    (Update NewCollector.1 uninitializedLibrary).flow ≠
      .returned (some "could not load NVML library") := by
  decide

/-- C4, amended: when `Initialize` fails with `err`, the scan makes exactly one library
call (`Initialize`; neither `DeviceCount` nor `Shutdown`), sends no metric, logs the fatal
line and ends the process with exit code 1 instead of returning. -/
theorem Update_initialize_error (c : nvidaCollector) (lib : Library) (err : GoError)
    (hinit : lib.Initialize = some err) :
    (Update c lib).samples = [] ∧
    (Update c lib).calls = [.Initialize] ∧
    .DeviceCount ∉ (Update c lib).calls ∧
    (Update c lib).logs = ["Couldn't initialize gonvml: " ++ err ++
      ". Make sure NVML is in the shared library search path."] ∧
    (Update c lib).flow = .exited 1 := by
  rw [Update_eq_of_initialize_error c lib err hinit]
  simp [Run.samples, Run.calls, Run.logs, Event.sent, Event.called, Event.logged]

/-- A scan of a library whose `Initialize` fails: nothing sent, one call, exit code 1. -/
theorem Update_initialize_error_witness :
    uninitializedLibrary.Initialize = some "could not load NVML library" ∧
    (Update NewCollector.1 uninitializedLibrary).samples = [] ∧
    (Update NewCollector.1 uninitializedLibrary).calls = [.Initialize] ∧
    (Update NewCollector.1 uninitializedLibrary).flow = .exited 1 :=
  ⟨rfl, (Update_initialize_error NewCollector.1 uninitializedLibrary _ rfl).1,
    (Update_initialize_error NewCollector.1 uninitializedLibrary _ rfl).2.1,
    (Update_initialize_error NewCollector.1 uninitializedLibrary _ rfl).2.2.2.2⟩

/-- C8: when `Initialize` succeeds and `DeviceCount` fails with `err`, the scan sends no
metric (no `device_count` either), makes no `DeviceHandleByIndex` call, calls `Shutdown`
and returns `err` to its caller. -/
theorem Update_deviceCount_error (c : nvidaCollector) (lib : Library) (err : GoError)
    (hinit : lib.Initialize = none) (hcount : lib.DeviceCount = .error err) :
    (Update c lib).samples = [] ∧
    (Update c lib).calls = [.Initialize, .DeviceCount, .Shutdown] ∧
    (∀ i, .DeviceHandleByIndex i ∉ (Update c lib).calls) ∧
    (Update c lib).logs = ["DeviceCount() error: " ++ err] ∧
    (Update c lib).flow = .returned (some err) := by
  rw [Update_eq_of_deviceCount_error c lib err hinit hcount]
  simp [Run.samples, Run.calls, Run.logs, Event.sent, Event.called, Event.logged]

/-- A scan of a library whose `DeviceCount` fails: nothing sent, three calls, the error
returned. -/
theorem Update_deviceCount_error_witness :
    uncountableLibrary.Initialize = none ∧
    uncountableLibrary.DeviceCount = .error "Unknown Error" ∧
    (Update NewCollector.1 uncountableLibrary).samples = [] ∧
    (Update NewCollector.1 uncountableLibrary).calls = [.Initialize, .DeviceCount, .Shutdown] ∧
    (Update NewCollector.1 uncountableLibrary).flow = .returned (some "Unknown Error") :=
  ⟨rfl, rfl, (Update_deviceCount_error NewCollector.1 uncountableLibrary _ rfl rfl).1,
    (Update_deviceCount_error NewCollector.1 uncountableLibrary _ rfl rfl).2.1,
    (Update_deviceCount_error NewCollector.1 uncountableLibrary _ rfl rfl).2.2.2.2⟩

/-! ## The session is closed -/

/-- C5: on every path of `Update` on which `Initialize` succeeds, whatever the collector
and whatever the library answers afterwards (a failing `DeviceCount`, failing handle
lookups, failing identity or telemetry calls, even a panic of `MustNewConstMetric`),
`Shutdown` is called exactly once, it is the last library call and the last event of the
scan; when `Initialize` fails, `Shutdown` is not called. -/
theorem Update_shutdown_once (c : nvidaCollector) (lib : Library) :
    (lib.Initialize = none →
      (Update c lib).calls.count .Shutdown = 1 ∧
      (Update c lib).calls.getLast? = some .Shutdown ∧
      (Update c lib).events.getLast? = some (.call .Shutdown) ∧
      (Update c lib).calls.head? = some .Initialize) ∧
    (lib.Initialize ≠ none → .Shutdown ∉ (Update c lib).calls) := by
  constructor
  · intro hinit
    have hk := keepsSession_afterDefer c lib
    have hnot : Call.Shutdown ∉ (afterDefer c lib).events.filterMap Event.called := by
      intro h
      obtain ⟨e, he, hc⟩ := List.mem_filterMap.1 h
      cases e <;> simp [Event.called] at hc
      subst hc
      exact hk.2 he
    rw [Update_eq_of_initialize_ok c lib hinit]
    have hcalls : Run.calls
        { events := .call .Initialize :: ((afterDefer c lib).events ++ [.call .Shutdown]),
          flow := (afterDefer c lib).flow } =
        (.Initialize :: (afterDefer c lib).events.filterMap Event.called) ++ [.Shutdown] := by
      simp [Run.calls, List.filterMap_cons, List.filterMap_append, Event.called]
    rw [hcalls]
    refine ⟨?_, List.getLast?_concat _, ?_, rfl⟩
    · rw [List.count_append, List.count_cons, List.count_eq_zero_of_not_mem hnot]
      simp
    · show (Event.call Call.Initialize :: ((afterDefer c lib).events ++
        [Event.call Call.Shutdown])).getLast? = _
      rw [← List.cons_append]
      exact List.getLast?_concat _
  · intro hinit
    cases h : lib.Initialize with
    | none => exact absurd h hinit
    | some err =>
      rw [Update_eq_of_initialize_error c lib err h]
      simp [Run.calls, Event.called]

/-- Scans of a healthy library, of one whose `DeviceCount` fails and of one whose
`Initialize` fails: `Shutdown` once and last in the first two, never in the third. -/
theorem Update_shutdown_once_witness :
    (healthyLibrary 2).Initialize = none ∧
    (Update NewCollector.1 (healthyLibrary 2)).calls.count .Shutdown = 1 ∧
    (Update NewCollector.1 (healthyLibrary 2)).calls.getLast? = some .Shutdown ∧
    uncountableLibrary.Initialize = none ∧
    (Update NewCollector.1 uncountableLibrary).calls.getLast? = some .Shutdown ∧
    uninitializedLibrary.Initialize ≠ none ∧
    .Shutdown ∉ (Update NewCollector.1 uninitializedLibrary).calls :=
  ⟨rfl, ((Update_shutdown_once NewCollector.1 (healthyLibrary 2)).1 rfl).1,
    ((Update_shutdown_once NewCollector.1 (healthyLibrary 2)).1 rfl).2.1,
    rfl, ((Update_shutdown_once NewCollector.1 uncountableLibrary).1 rfl).2.1,
    by decide, (Update_shutdown_once NewCollector.1 uninitializedLibrary).2 (by decide)⟩

/-! ## The `device_count` metric -/

/-- C3: whenever `Initialize` and `DeviceCount` succeed with count `n`, whatever the
library answers for the devices, the first metric sent is the `device_count` metric, it
has no label values and carries `n`, it is sent right after the `DeviceCount` call, and
it is the only metric under the `device_count` descriptor. -/
theorem Update_device_count_sample (lib : Library) (n : Nat)
    (hinit : lib.Initialize = none) (hcount : lib.DeviceCount = .ok n) :
    (Update NewCollector.1 lib).samples.head? =
      some ⟨NewCollector.1.deviceCount, .CounterValue, n, []⟩ ∧
    (Update NewCollector.1 lib).samples.filter (fun s => s.desc = NewCollector.1.deviceCount) =
      [⟨NewCollector.1.deviceCount, .CounterValue, n, []⟩] ∧
    (Update NewCollector.1 lib).events.take 3 =
      [.call .Initialize, .call .DeviceCount,
       .send ⟨NewCollector.1.deviceCount, .CounterValue, n, []⟩] := by
  refine ⟨?_, ?_, ?_⟩
  · rw [Update_samples lib n hinit hcount]
    rfl
  · rw [Update_samples lib n hinit hcount]
    have hrest : ((List.range (intOfUint n).toNat).flatMap
        (deviceSamples NewCollector.1 lib)).filter
          (fun s => s.desc = NewCollector.1.deviceCount) = [] := by
      rw [List.filter_eq_nil_iff]
      intro s hs
      obtain ⟨j, -, hj⟩ := List.mem_flatMap.1 hs
      simpa using deviceSamples_desc_ne_deviceCount lib j s hj
    rw [List.filter_cons_of_pos (by simp [countMetric]), hrest]
    rfl
  · rw [Update_eq_of_count lib n hinit hcount]
    rfl

/-- A scan of two devices whose handle lookups both fail: the only metric is
`device_count` with value 2. -/
theorem Update_device_count_sample_witness :
    (unreachableLibrary 2).Initialize = none ∧
    (unreachableLibrary 2).DeviceCount = .ok 2 ∧
    (Update NewCollector.1 (unreachableLibrary 2)).samples =
      [⟨NewCollector.1.deviceCount, .CounterValue, 2, []⟩] ∧
    (Update NewCollector.1 (unreachableLibrary 2)).samples.head? =
      some ⟨NewCollector.1.deviceCount, .CounterValue, 2, []⟩ :=
  ⟨rfl, rfl, by decide, (Update_device_count_sample (unreachableLibrary 2) 2 rfl rfl).1⟩

/-! ## Device-level failures -/

/-- C9: whenever `Initialize` and `DeviceCount` succeed with a count `n` (in the range
where `int(deviceCount)` is `n`), the scan returns `nil` whatever fails afterwards, the
handle lookups made are exactly those for the indices `0, 1, ..., n - 1` in this order,
an index whose lookup fails contributes one log line and no metric, and the session is
closed last. -/
theorem Update_handle_errors_do_not_abort (lib : Library) (n : Nat)
    (hinit : lib.Initialize = none) (hcount : lib.DeviceCount = .ok n) (hn : n < 2 ^ 63) :
    (Update NewCollector.1 lib).flow = .returned none ∧
    (Update NewCollector.1 lib).calls.filterMap Call.handleIndex = List.range n ∧
    (∀ i e, (lib.device i).DeviceHandleByIndex = .error e →
      loopBody NewCollector.1 lib i =
        { events := [.call (.DeviceHandleByIndex i),
            .log ("DeviceHandleByIndex(" ++ toString i ++ ") error: " ++ e)],
          flow := .normal } ∧
      deviceSamples NewCollector.1 lib i = []) ∧
    (Update NewCollector.1 lib).samples =
      countMetric NewCollector.1 n ::
        (List.range n).flatMap (deviceSamples NewCollector.1 lib) ∧
    (Update NewCollector.1 lib).calls.getLast? = some .Shutdown := by
  refine ⟨?_, ?_, ?_, ?_, ?_⟩
  · rw [Update_eq_of_count lib n hinit hcount]
  · rw [Update_handleIndex lib n hinit hcount, intOfUint_toNat hn]
  · intro i e he
    refine ⟨?_, deviceSamples_of_handle_error lib i he⟩
    rw [loopBody_eq]
    simp [bodyEvents, he]
  · rw [Update_samples lib n hinit hcount, intOfUint_toNat hn]
  · rw [Update_eq_of_count lib n hinit hcount]
    simp only [Run.calls, List.filterMap_append]
    exact List.getLast?_concat _

/-- A scan with count 1 whose handle lookup fails: one `device_count` metric with value 1,
no other metric, `Shutdown` called, `nil` returned. -/
theorem Update_handle_errors_do_not_abort_witness :
    (unreachableLibrary 1).Initialize = none ∧
    (unreachableLibrary 1).DeviceCount = .ok 1 ∧
    ((unreachableLibrary 1).device 0).DeviceHandleByIndex = .error "GPU is lost" ∧
    Update NewCollector.1 (unreachableLibrary 1) =
      { events := [.call .Initialize, .call .DeviceCount,
          .send ⟨NewCollector.1.deviceCount, .CounterValue, 1, []⟩,
          .call (.DeviceHandleByIndex 0),
          .log "DeviceHandleByIndex(0) error: GPU is lost",
          .call .Shutdown],
        flow := .returned none } ∧
    (Update NewCollector.1 (unreachableLibrary 1)).flow = .returned none ∧
    (Update NewCollector.1 (unreachableLibrary 1)).calls.filterMap Call.handleIndex =
      List.range 1 :=
  ⟨rfl, rfl, rfl, by decide,
    (Update_handle_errors_do_not_abort (unreachableLibrary 1) 1 rfl rfl (by decide)).1,
    (Update_handle_errors_do_not_abort (unreachableLibrary 1) 1 rfl rfl (by decide)).2.1⟩

/-- C2: for every count `n` (in the range where `int(deviceCount)` is `n`) and index
`i < n`, if `MinorNumber`, `UUID` or `Name` fails for device `i`, the iteration sends no
metric at all and does not even call `SystemDriverVersion`; the metrics of the scan are
those of the other iterations, which are the same, in the same order, as in the scan
where device `i` gives any other answers `d` (for instance those of a fully healthy
device), and the handle of index `i + 1` is looked up when `i + 1 < n`. -/
theorem identity_failure_skips_device (lib : Library) (n i : Nat)
    (hinit : lib.Initialize = none) (hcount : lib.DeviceCount = .ok n) (hn : n < 2 ^ 63)
    (hi : i < n)
    (hfail : (∃ e, (lib.device i).MinorNumber = .error e) ∨
      (∃ e, (lib.device i).UUID = .error e) ∨ (∃ e, (lib.device i).Name = .error e)) :
    deviceSamples NewCollector.1 lib i = [] ∧
    .SystemDriverVersion ∉ (loopBody NewCollector.1 lib i).calls ∧
    (loopBody NewCollector.1 lib i).flow = .normal ∧
    (Update NewCollector.1 lib).samples =
      countMetric NewCollector.1 n ::
        ((List.range i).flatMap (deviceSamples NewCollector.1 lib) ++
          (List.range' (i + 1) (n - (i + 1))).flatMap (deviceSamples NewCollector.1 lib)) ∧
    (∀ d, (Update NewCollector.1 (lib.withDevice i d)).samples =
      countMetric NewCollector.1 n ::
        ((List.range i).flatMap (deviceSamples NewCollector.1 lib) ++
          deviceSamples NewCollector.1 (lib.withDevice i d) i ++
          (List.range' (i + 1) (n - (i + 1))).flatMap (deviceSamples NewCollector.1 lib))) ∧
    (i + 1 < n → .DeviceHandleByIndex (i + 1) ∈ (Update NewCollector.1 lib).calls) := by
  have hnil := deviceSamples_of_identity_error lib i hfail
  refine ⟨hnil, ?_, ?_, ?_, ?_, ?_⟩
  · rw [loopBody_eq]
    unfold bodyEvents Run.calls
    cases hh : (lib.device i).DeviceHandleByIndex with
    | error e => simp [Event.called]
    | ok _ =>
      cases hm : (lib.device i).MinorNumber with
      | error e => simp [Event.called]
      | ok m =>
        cases hu : (lib.device i).UUID with
        | error e => simp [Event.called]
        | ok u =>
          cases hnm : (lib.device i).Name with
          | error e => simp [Event.called]
          | ok nm => simp [hm, hu, hnm] at hfail
  · rw [loopBody_eq]
  · rw [Update_samples_split lib n i hinit hcount hn hi, hnil]
    simp
  · intro d
    exact Update_samples_withDevice lib n i d hinit hcount hn hi
  · intro h
    have hmem : i + 1 ∈ (Update NewCollector.1 lib).calls.filterMap Call.handleIndex := by
      rw [Update_handleIndex lib n hinit hcount, intOfUint_toNat hn]
      exact List.mem_range.2 h
    obtain ⟨c, hc, hci⟩ := List.mem_filterMap.1 hmem
    cases c <;> simp [Call.handleIndex] at hci
    subst hci
    exact hc

/-- A scan of three devices where `MinorNumber` fails for the second: the metrics are
`device_count` and those of the first and third device. -/
theorem identity_failure_skips_device_witness :
    (anonymousSecondLibrary 3).Initialize = none ∧
    (anonymousSecondLibrary 3).DeviceCount = .ok 3 ∧
    ((anonymousSecondLibrary 3).device 1).MinorNumber = .error "Not Supported" ∧
    deviceSamples NewCollector.1 (anonymousSecondLibrary 3) 1 = [] ∧
    (Update NewCollector.1 (anonymousSecondLibrary 3)).samples =
      countMetric NewCollector.1 3 ::
        (deviceSamples NewCollector.1 (healthyLibrary 3) 0 ++
          deviceSamples NewCollector.1 (healthyLibrary 3) 2) ∧
    (deviceSamples NewCollector.1 (healthyLibrary 3) 2).length = 10 ∧
    .DeviceHandleByIndex 2 ∈ (Update NewCollector.1 (anonymousSecondLibrary 3)).calls :=
  ⟨rfl, rfl, rfl,
    (identity_failure_skips_device (anonymousSecondLibrary 3) 3 1 rfl rfl (by decide)
      (by decide) (Or.inl ⟨_, rfl⟩)).1,
    by decide, by decide,
    (identity_failure_skips_device (anonymousSecondLibrary 3) 3 1 rfl rfl (by decide)
      (by decide) (Or.inl ⟨_, rfl⟩)).2.2.2.2.2 (by decide)⟩

/-! ## Identity labels -/

/-- C1, as stated, fails: on a healthy device with minor number 0, uuid `GPU-a` and name
`Tesla`, the scan sends a `process_info` metric whose label values are the minor number,
the pid and the name of the process, not the minor number, uuid and name of the device. -/
theorem process_info_labels_counterexample :
    ((healthyLibrary 1).device 0).MinorNumber = .ok 0 ∧
    ((healthyLibrary 1).device 0).UUID = .ok "GPU-a" ∧
    ((healthyLibrary 1).device 0).Name = .ok "Tesla" ∧
    ∃ s ∈ deviceSamples NewCollector.1 (healthyLibrary 1) 0,
      s ∈ (Update NewCollector.1 (healthyLibrary 1)).samples ∧
      s.desc = NewCollector.1.processInfo ∧
      s.labelValues = ["0", "7", "python"] ∧
      s.labelValues ≠ ["0", "GPU-a", "Tesla"] :=
  ⟨rfl, rfl, rfl, by decide⟩

/-- C1, amended: for a device whose handle lookup, `MinorNumber`, `UUID` and `Name` all
succeed, every metric of its iteration under the `memory_used`, `memory_total`,
`power_usage`, `temperature`, `utilization_gpu`, `utilization_memory` and
`utilization_gpu_average` descriptors carries the label values (minor, uuid, name) under
the label names (`minor_number`, `uuid`, `name`); a `driver_info` metric carries them
followed by the driver version; a `process_info` metric carries the minor, then the pid
and name of a process of the list; there is no other metric.  The minor is
`strconv.Itoa(int(minorNumber))`, the decimal string of the minor number when it is
below `2^63`. -/
theorem deviceSamples_identity_labels (lib : Library) (n i m : Nat) (u nm : String)
    (hinit : lib.Initialize = none) (hcount : lib.DeviceCount = .ok n) (hn63 : n < 2 ^ 63)
    (hi : i < n) (hh : (lib.device i).DeviceHandleByIndex = .ok ())
    (hm : (lib.device i).MinorNumber = .ok m) (hu : (lib.device i).UUID = .ok u)
    (hn : (lib.device i).Name = .ok nm) :
    (Update NewCollector.1 lib).samples =
      countMetric NewCollector.1 n ::
        ((List.range i).flatMap (deviceSamples NewCollector.1 lib) ++
          deviceSamples NewCollector.1 lib i ++
          (List.range' (i + 1) (n - (i + 1))).flatMap (deviceSamples NewCollector.1 lib)) ∧
    (∀ s ∈ deviceSamples NewCollector.1 lib i,
      (s.desc ∈ identityDescs NewCollector.1 →
        s.desc.variableLabels = ["minor_number", "uuid", "name"] ∧
        s.labelValues = [Itoa (intOfUint m), u, nm]) ∧
      (s.desc = NewCollector.1.deviceInfo →
        s.desc.variableLabels = ["minor_number", "uuid", "name", "version"] ∧
        ∃ v, (lib.device i).SystemDriverVersion = .ok v ∧
          s.labelValues = [Itoa (intOfUint m), u, nm, v]) ∧
      (s.desc = NewCollector.1.processInfo →
        s.desc.variableLabels = ["minor_number", "Pid", "name"] ∧
        ∃ ps p, (lib.device i).GetProcessInfo = .ok ps ∧ p ∈ ps ∧
          s.labelValues = [Itoa (intOfUint m), Sprint p.PID, p.Name]) ∧
      (s.desc ∈ identityDescs NewCollector.1 ∨ s.desc = NewCollector.1.deviceInfo ∨
        s.desc = NewCollector.1.processInfo)) ∧
    (m < 2 ^ 63 → Itoa (intOfUint m) = toString m) := by
  refine ⟨Update_samples_split lib n i hinit hcount hn63 hi, ?_, Itoa_intOfUint⟩
  intro s hs
  rw [deviceSamples_of_identity lib i hh hm hu hn] at hs
  obtain ⟨f, -, hf⟩ := List.mem_flatMap.1 hs
  have hd := fieldMetrics_desc _ _ _ _ f s hf
  by_cases hf1 : f = .SystemDriverVersion
  · subst hf1
    obtain ⟨v, hv, rfl⟩ := fieldMetrics_driver _ _ _ _ s hf
    exact ⟨fun h => absurd h deviceInfo_not_mem_identityDescs,
      fun _ => ⟨rfl, v, hv, rfl⟩, fun h => absurd h deviceInfo_ne_processInfo,
      Or.inr (Or.inl rfl)⟩
  · by_cases hf2 : f = .GetProcessInfo
    · subst hf2
      obtain ⟨ps, p, hps, hp, rfl⟩ := fieldMetrics_process _ _ _ _ s hf
      exact ⟨fun h => absurd h processInfo_not_mem_identityDescs,
        fun h => absurd h.symm deviceInfo_ne_processInfo,
        fun _ => ⟨rfl, ps, p, hps, hp, rfl⟩, Or.inr (Or.inr rfl)⟩
    · have hmem := mem_identityDescs_of_mem_descs f hf1 hf2 s.desc hd
      obtain ⟨h1, h2⟩ := fieldMetrics_identity_labels _ _ _ _ f hf1 hf2 s hf
      refine ⟨fun _ => ⟨h2, h1⟩, ?_, ?_, Or.inl hmem⟩
      · intro h
        rw [h] at hmem
        exact absurd hmem deviceInfo_not_mem_identityDescs
      · intro h
        rw [h] at hmem
        exact absurd hmem processInfo_not_mem_identityDescs

/-- A scan of one healthy device: ten metrics, and those under the seven descriptors
declared with `labels` carry `0`, `GPU-a`, `Tesla`. -/
theorem deviceSamples_identity_labels_witness :
    (healthyLibrary 1).DeviceCount = .ok 1 ∧
    ((healthyLibrary 1).device 0).DeviceHandleByIndex = .ok () ∧
    ((healthyLibrary 1).device 0).MinorNumber = .ok 0 ∧
    ((healthyLibrary 1).device 0).UUID = .ok "GPU-a" ∧
    ((healthyLibrary 1).device 0).Name = .ok "Tesla" ∧
    (deviceSamples NewCollector.1 (healthyLibrary 1) 0).length = 10 ∧
    Itoa (intOfUint 0) = "0" ∧
    ∀ s ∈ deviceSamples NewCollector.1 (healthyLibrary 1) 0,
      s.desc ∈ identityDescs NewCollector.1 →
        s.desc.variableLabels = ["minor_number", "uuid", "name"] ∧
        s.labelValues = [Itoa (intOfUint 0), "GPU-a", "Tesla"] :=
  ⟨rfl, rfl, rfl, rfl, rfl, by decide, by decide, fun s hs =>
    ((deviceSamples_identity_labels (healthyLibrary 1) 1 0 0 "GPU-a" "Tesla"
      rfl rfl (by decide) (by decide) rfl rfl rfl rfl).2.1 s hs).1⟩

/-! ## Independence of the telemetry fields -/

/-- C6: for a device whose identity succeeds and a telemetry call `f`
(`SystemDriverVersion`, `MemoryInfo`, `PowerUsage`, `Temperature`, `GetProcessInfo`,
`UtilizationRates`, `AverageGPUUtilization`), making `f` fail for device `i` removes from
the metrics of the scan exactly the metrics of iteration `i` under the descriptors of `f`,
which are the metrics derived from `f`; every other metric of device `i` and every metric
of every other device stays, in the same order. -/
theorem field_failure_removes_its_samples (lib : Library) (n i m : Nat) (u nm : String)
    (f : Field) (err : GoError)
    (hinit : lib.Initialize = none) (hcount : lib.DeviceCount = .ok n) (hn : n < 2 ^ 63)
    (hi : i < n) (hh : (lib.device i).DeviceHandleByIndex = .ok ())
    (hm : (lib.device i).MinorNumber = .ok m) (hu : (lib.device i).UUID = .ok u)
    (hnm : (lib.device i).Name = .ok nm) :
    (Update NewCollector.1 lib).samples =
      countMetric NewCollector.1 n ::
        ((List.range i).flatMap (deviceSamples NewCollector.1 lib) ++
          deviceSamples NewCollector.1 lib i ++
          (List.range' (i + 1) (n - (i + 1))).flatMap (deviceSamples NewCollector.1 lib)) ∧
    (Update NewCollector.1 (lib.withDevice i ((lib.device i).fail f err))).samples =
      countMetric NewCollector.1 n ::
        ((List.range i).flatMap (deviceSamples NewCollector.1 lib) ++
          (deviceSamples NewCollector.1 lib i).filter
            (fun s => s.desc ∉ f.descs NewCollector.1) ++
          (List.range' (i + 1) (n - (i + 1))).flatMap (deviceSamples NewCollector.1 lib)) ∧
    (deviceSamples NewCollector.1 lib i).filter (fun s => s.desc ∈ f.descs NewCollector.1) =
      fieldMetrics (lib.device i) (Itoa (intOfUint m)) u nm f ∧
    (Update NewCollector.1 (lib.withDevice i ((lib.device i).fail f err))).flow =
      .returned none := by
  refine ⟨Update_samples_split lib n i hinit hcount hn hi, ?_,
    deviceSamples_filter_descs lib i f hh hm hu hnm, ?_⟩
  · rw [Update_samples_withDevice lib n i _ hinit hcount hn hi, deviceSamples_fail]
  · rw [Update_eq_of_count (lib.withDevice i ((lib.device i).fail f err)) n hinit hcount]

/-- The scenario with count 2, device 0 healthy and `MemoryInfo` failing for device 1:
`device_count` with value 2, the ten metrics of device 0, and the metrics of device 1
except `memory_used` and `memory_total`. -/
theorem field_failure_removes_its_samples_witness :
    memoryFailureLibrary.DeviceCount = .ok 2 ∧
    (memoryFailureLibrary.device 1).MemoryInfo = .error "Unknown Error" ∧
    (Update NewCollector.1 memoryFailureLibrary).samples =
      countMetric NewCollector.1 2 ::
        (deviceSamples NewCollector.1 (healthyLibrary 2) 0 ++
          (deviceSamples NewCollector.1 (healthyLibrary 2) 1).filter
            (fun s => s.desc ∉ Field.descs NewCollector.1 .MemoryInfo)) ∧
    (Update NewCollector.1 memoryFailureLibrary).samples.map
        (fun s => (s.desc.fqName, s.labelValues, s.value)) =
      [("nvidia_device_count", [], 2),
       ("nvidia_driver_info", ["0", "GPU-a", "Tesla", "418.67"], 0),
       ("nvidia_memory_used", ["0", "GPU-a", "Tesla"], 4),
       ("nvidia_memory_total", ["0", "GPU-a", "Tesla"], 16),
       ("nvidia_power_usage", ["0", "GPU-a", "Tesla"], 50),
       ("nvidia_temperatures", ["0", "GPU-a", "Tesla"], 40),
       ("nvidia_processInfo", ["0", "7", "python"], 3),
       ("nvidia_processInfo", ["0", "9", "xorg"], 1),
       ("nvidia_utilization_gpu", ["0", "GPU-a", "Tesla"], 90),
       ("nvidia_utilization_memory", ["0", "GPU-a", "Tesla"], 30),
       ("nvidia_utilization_gpu_average", ["0", "GPU-a", "Tesla"], 80),
       ("nvidia_driver_info", ["1", "GPU-a", "Tesla", "418.67"], 0),
       ("nvidia_power_usage", ["1", "GPU-a", "Tesla"], 50),
       ("nvidia_temperatures", ["1", "GPU-a", "Tesla"], 40),
       ("nvidia_processInfo", ["1", "7", "python"], 3),
       ("nvidia_processInfo", ["1", "9", "xorg"], 1),
       ("nvidia_utilization_gpu", ["1", "GPU-a", "Tesla"], 90),
       ("nvidia_utilization_memory", ["1", "GPU-a", "Tesla"], 30),
       ("nvidia_utilization_gpu_average", ["1", "GPU-a", "Tesla"], 80)] :=
  ⟨rfl, rfl,
    by simpa using (field_failure_removes_its_samples (healthyLibrary 2) 2 1 1 "GPU-a" "Tesla"
      .MemoryInfo "Unknown Error" rfl rfl (by decide) (by decide) rfl rfl rfl rfl).2.1,
    by decide⟩

/-! ## The process list -/

/-- C7: for a device `i` whose identity succeeds and whose `GetProcessInfo` call answers
a list `ps`, the block after the call sends one `process_info` metric per entry, in list
order, with label values (minor, decimal pid, process name) and the used memory as
value, logs nothing and falls through; these are exactly the `process_info` metrics of
device `i` in the scan; and the other metrics of device `i` are those of the same device
with an empty process list, for which there is no `process_info` metric at all. -/
theorem process_info_samples (lib : Library) (n i m : Nat) (u nm : String)
    (ps : List ProcessInfo)
    (hinit : lib.Initialize = none) (hcount : lib.DeviceCount = .ok n) (hn : n < 2 ^ 63)
    (hi : i < n) (hh : (lib.device i).DeviceHandleByIndex = .ok ())
    (hm : (lib.device i).MinorNumber = .ok m) (hu : (lib.device i).UUID = .ok u)
    (hnm : (lib.device i).Name = .ok nm) (hps : (lib.device i).GetProcessInfo = .ok ps) :
    sampleProcessInfo NewCollector.1 (Itoa (intOfUint m)) (lib.device i).GetProcessInfo =
      { events := ps.map fun p => .send
          ⟨NewCollector.1.processInfo, .GaugeValue, p.UsedMemory,
            [Itoa (intOfUint m), Sprint p.PID, p.Name]⟩,
        flow := .normal } ∧
    (deviceSamples NewCollector.1 lib i).filter
        (fun s => s.desc = NewCollector.1.processInfo) =
      ps.map (fun p => ⟨NewCollector.1.processInfo, .GaugeValue, p.UsedMemory,
        [Itoa (intOfUint m), Sprint p.PID, p.Name]⟩) ∧
    ((deviceSamples NewCollector.1 lib i).filter
        (fun s => s.desc = NewCollector.1.processInfo)).length = ps.length ∧
    (Update NewCollector.1 lib).samples =
      countMetric NewCollector.1 n ::
        ((List.range i).flatMap (deviceSamples NewCollector.1 lib) ++
          deviceSamples NewCollector.1 lib i ++
          (List.range' (i + 1) (n - (i + 1))).flatMap (deviceSamples NewCollector.1 lib)) ∧
    (Update NewCollector.1 lib).flow = .returned none ∧
    (deviceSamples NewCollector.1 lib i).filter
        (fun s => s.desc ≠ NewCollector.1.processInfo) =
      deviceSamples NewCollector.1
        (lib.withDevice i { lib.device i with GetProcessInfo := .ok [] }) i ∧
    (deviceSamples NewCollector.1
        (lib.withDevice i { lib.device i with GetProcessInfo := .ok [] }) i).filter
        (fun s => s.desc = NewCollector.1.processInfo) = [] := by
  have hfilter : (deviceSamples NewCollector.1 lib i).filter
        (fun s => s.desc = NewCollector.1.processInfo) =
      ps.map (fun p => ⟨NewCollector.1.processInfo, .GaugeValue, p.UsedMemory,
        [Itoa (intOfUint m), Sprint p.PID, p.Name]⟩) := by
    have h := deviceSamples_filter_descs lib i .GetProcessInfo hh hm hu hnm
    simp only [Field.descs, List.mem_singleton] at h
    rw [h]
    simp [fieldMetrics, hps]
  have hd : (lib.withDevice i { lib.device i with GetProcessInfo := .ok [] }).device i =
      { lib.device i with GetProcessInfo := .ok [] } := by simp [Library.withDevice]
  have hempty : deviceSamples NewCollector.1
        (lib.withDevice i { lib.device i with GetProcessInfo := .ok [] }) i =
      (Field.sourceOrder.filter (fun g => g ≠ .GetProcessInfo)).flatMap
        (fieldMetrics (lib.device i) (Itoa (intOfUint m)) u nm) := by
    rw [@deviceSamples_of_identity _ i m u nm (by rw [hd]; exact hh)
      (by rw [hd]; exact hm) (by rw [hd]; exact hu) (by rw [hd]; exact hnm), hd]
    simp [Field.sourceOrder, fieldMetrics]
  refine ⟨?_, hfilter, ?_, Update_samples_split lib n i hinit hcount hn hi, ?_, ?_, ?_⟩
  · rw [hps]
    exact seq_processInfo NewCollector.1.processInfo rfl _ ps
  · rw [hfilter, List.length_map]
  · rw [Update_eq_of_count lib n hinit hcount]
  · have hpred : (fun s : Metric => decide (s.desc ≠ NewCollector.1.processInfo)) =
        fun s => decide (s.desc ∉ Field.descs NewCollector.1 .GetProcessInfo) := by
      funext s
      simp [Field.descs]
    rw [hempty, deviceSamples_of_identity lib i hh hm hu hnm, List.filter_flatMap, hpred]
    simp only [filter_fieldMetrics]
    simp [Field.sourceOrder]
  · rw [hempty, List.filter_flatMap]
    have h := fun g => filter_mem_fieldMetrics (lib.device i) (Itoa (intOfUint m)) u nm
      .GetProcessInfo g
    simp only [Field.descs, List.mem_singleton] at h
    simp [Field.sourceOrder, h]

/-- A device without processes sends no `process_info` metric and eight other metrics; a
device with two processes sends two, in list order. -/
theorem process_info_samples_witness :
    ((idleLibrary 1).device 0).GetProcessInfo = .ok [] ∧
    sampleProcessInfo NewCollector.1 (Itoa (intOfUint 0))
        ((idleLibrary 1).device 0).GetProcessInfo =
      { events := [], flow := .normal } ∧
    (deviceSamples NewCollector.1 (idleLibrary 1) 0).filter
        (fun s => s.desc = NewCollector.1.processInfo) = [] ∧
    (deviceSamples NewCollector.1 (idleLibrary 1) 0).length = 8 ∧
    (Update NewCollector.1 (idleLibrary 1)).flow = .returned none ∧
    (deviceSamples NewCollector.1 (healthyLibrary 1) 0).filter
        (fun s => s.desc = NewCollector.1.processInfo) =
      [⟨NewCollector.1.processInfo, .GaugeValue, 3, ["0", "7", "python"]⟩,
       ⟨NewCollector.1.processInfo, .GaugeValue, 1, ["0", "9", "xorg"]⟩] :=
  ⟨rfl,
    (process_info_samples (idleLibrary 1) 1 0 0 "GPU-a" "Tesla" [] rfl rfl (by decide)
      (by decide) rfl rfl rfl rfl rfl).1,
    (process_info_samples (idleLibrary 1) 1 0 0 "GPU-a" "Tesla" [] rfl rfl (by decide)
      (by decide) rfl rfl rfl rfl rfl).2.1,
    by decide,
    (process_info_samples (idleLibrary 1) 1 0 0 "GPU-a" "Tesla" [] rfl rfl (by decide)
      (by decide) rfl rfl rfl rfl rfl).2.2.2.2.1,
    (process_info_samples (healthyLibrary 1) 1 0 0 "GPU-a" "Tesla" _ rfl rfl (by decide)
      (by decide) rfl rfl rfl rfl rfl).2.1⟩

/-! ## Label cardinality -/

/-- C10: for every answer of the library, no `MustNewConstMetric` call of a scan by the
collector of `NewCollector` panics, and every metric sent supplies exactly as many label
values as its descriptor declares label names: none for `device_count`, four for
`driver_info`, three for the eight other descriptors. -/
theorem Update_label_cardinality (lib : Library) :
    (∀ v, (Update NewCollector.1 lib).flow ≠ .panicked v) ∧
    (∀ s ∈ (Update NewCollector.1 lib).samples,
      s.labelValues.length = s.desc.variableLabels.length ∧
      ((s.desc = NewCollector.1.deviceCount ∧ s.labelValues.length = 0) ∨
       (s.desc = NewCollector.1.deviceInfo ∧ s.labelValues.length = 4) ∨
       (s.desc ∈ [NewCollector.1.memoryUsed, NewCollector.1.memoryTotal,
          NewCollector.1.powerUsage, NewCollector.1.temperature, NewCollector.1.processInfo,
          NewCollector.1.utilizationGPU, NewCollector.1.utilizationMemory,
          NewCollector.1.utilizationGPUAverage] ∧ s.labelValues.length = 3))) ∧
    NewCollector.1.deviceCount.variableLabels.length = 0 ∧
    NewCollector.1.deviceInfo.variableLabels.length = 4 ∧
    (∀ desc ∈ [NewCollector.1.memoryUsed, NewCollector.1.memoryTotal,
        NewCollector.1.powerUsage, NewCollector.1.temperature, NewCollector.1.processInfo,
        NewCollector.1.utilizationGPU, NewCollector.1.utilizationMemory,
        NewCollector.1.utilizationGPUAverage], desc.variableLabels.length = 3) := by
  refine ⟨?_, ?_, rfl, rfl, by decide⟩
  · intro v
    cases hinit : lib.Initialize with
    | some err => simp [Update_eq_of_initialize_error _ lib err hinit]
    | none =>
      cases hcount : lib.DeviceCount with
      | error err => simp [Update_eq_of_deviceCount_error _ lib err hinit hcount]
      | ok n => simp [Update_eq_of_count lib n hinit hcount]
  · intro s hs
    cases hinit : lib.Initialize with
    | some err =>
      simp [Update_eq_of_initialize_error _ lib err hinit, Run.samples, Event.sent] at hs
    | none =>
      cases hcount : lib.DeviceCount with
      | error err =>
        simp [Update_eq_of_deviceCount_error _ lib err hinit hcount, Run.samples,
          Event.sent] at hs
      | ok n =>
        rw [Update_samples lib n hinit hcount] at hs
        rcases List.mem_cons.1 hs with rfl | hs
        · exact ⟨rfl, Or.inl ⟨rfl, rfl⟩⟩
        · obtain ⟨j, -, hj⟩ := List.mem_flatMap.1 hs
          obtain ⟨m, u, nm, -, -, -, -, f, hf⟩ := mem_deviceSamples lib j s hj
          by_cases hf1 : f = .SystemDriverVersion
          · subst hf1
            obtain ⟨v, -, rfl⟩ := fieldMetrics_driver _ _ _ _ s hf
            exact ⟨rfl, Or.inr (Or.inl ⟨rfl, rfl⟩)⟩
          · by_cases hf2 : f = .GetProcessInfo
            · subst hf2
              obtain ⟨ps, p, -, -, rfl⟩ := fieldMetrics_process _ _ _ _ s hf
              exact ⟨rfl, Or.inr (Or.inr ⟨by simp, rfl⟩)⟩
            · obtain ⟨h1, h2⟩ := fieldMetrics_identity_labels _ _ _ _ f hf1 hf2 s hf
              have hd := fieldMetrics_desc _ _ _ _ f s hf
              refine ⟨by rw [h1, h2]; rfl, Or.inr (Or.inr ⟨?_, by rw [h1]; rfl⟩)⟩
              cases f <;> first
                | exact absurd rfl hf1
                | exact absurd rfl hf2
                | (simp only [Field.descs, List.mem_cons, List.mem_singleton,
                    List.not_mem_nil, or_false] at hd
                   (try rcases hd with hd | hd) <;> simp [hd])

end collector
